import Mathlib

/-!
# FoundationDB multi-version client: the dynamically loaded C API table and its adapters

A shallow embedding of `fdbclient/MultiVersionTransaction.h`.

* The loaded client library is a set of C functions with side effects.  A C function is
  embedded as a state transformer `Lib σ α` over the state `σ` of the library (everything a
  call may read or write, including the memory its pointer arguments refer to).
* A function pointer that may be null is an `Option`; `none` is the null pointer.
* A member function of `FdbCApi` is embedded as a computation `M σ α` that ends in one of
  four ways: it returns, it throws, an `ASSERT` fails, or it calls through a null pointer.
* C integers are `Int`/`Nat`: the code only passes them on, no arithmetic is done on them.
  Pointers are addresses (`Ptr`, `0` is `nullptr`); a `const char*` is the string it points to.
-/

namespace FDB

/-! ## Basic types -/

/-- Address held by a C pointer; `0` is the null pointer. -/
abbrev Ptr := Nat

/-- The type `fdb_error_t` (`typedef int fdb_error_t`). -/
abbrev fdb_error_t := Int

/-- The type `fdb_bool_t` (`typedef int fdb_bool_t`). -/
abbrev fdb_bool_t := Int

/-- Option and mode enums of the C API: integer codes. -/
abbrev FDBNetworkOption := Int

/-- Integer code of a database option. -/
abbrev FDBDatabaseOption := Int

/-- Integer code of a transaction option. -/
abbrev FDBTransactionOption := Int

/-- Integer code of a streaming mode. -/
abbrev FDBStreamingMode := Int

/-- Integer code of an atomic mutation. -/
abbrev FDBMutationType := Int

/-- Integer code of a conflict range type. -/
abbrev FDBConflictRangeType := Int

/-- The errors the header throws by name. -/
inductive Error where
  | unsupported_operation
  deriving DecidableEq, Repr

/-- How a member function ends: it returns a value, it throws, an `ASSERT` fails, or it calls
through a null function pointer (undefined behaviour in C++, kept as an outcome of its own). -/
inductive Outcome (α : Type) where
  | ok (a : α)
  | thrown (e : Error)
  | assertFailed
  | nullCall

/-- True exactly for the outcome of a call through a null function pointer. -/
def Outcome.isNullCall {α : Type} : Outcome α → Bool
  | .nullCall => true
  | _ => false

/-- Forget the returned value, keep how the call ended. -/
def Outcome.discard {α : Type} : Outcome α → Outcome Unit
  | .ok _ => .ok ()
  | .thrown e => .thrown e
  | .assertFailed => .assertFailed
  | .nullCall => .nullCall

/-- A C function of the loaded library: reads and updates the library state, returns a value. -/
abbrev Lib (σ α : Type) := σ → α × σ

/-- A member function of the wrapper classes. -/
abbrev M (σ α : Type) := σ → Outcome α × σ

/-- The statement `return a;`. -/
def M.ret {σ α : Type} (a : α) : M σ α := fun s => (.ok a, s)

/-- The statement `throw e;`. -/
def M.throw {σ α : Type} (e : Error) : M σ α := fun s => (.thrown e, s)

/-- Sequencing `first; second`: `second` runs only when `first` returned. -/
def M.seq {σ α : Type} (first : M σ Unit) (second : M σ α) : M σ α := fun s =>
  match first s with
  | (.ok _, s1) => second s1
  | (.thrown e, s1) => (.thrown e, s1)
  | (.assertFailed, s1) => (.assertFailed, s1)
  | (.nullCall, s1) => (.nullCall, s1)

/-- The statement `ASSERT(c);`.  The macro comes from `flow/Error.h`, which is not part of this
header: it is taken as a check that lets the function go on when `c` holds and otherwise ends
the call at once, in the outcome `assertFailed` that stands for whatever the macro raises. -/
def ASSERT {σ : Type} (c : Bool) : M σ Unit := fun s =>
  if c then (.ok (), s) else (.assertFailed, s)

/-- Run a member function and drop its return value. -/
def M.discard {σ α : Type} (m : M σ α) : M σ Unit := fun s => ((m s).1.discard, (m s).2)

/-- The expression `fp_(args)`: a call through the function pointer `p`, where `app` applies
the pointed-to function to the arguments. -/
def callPtr {σ α F : Type} (p : Option F) (app : F → Lib σ α) : M σ α := fun s =>
  match p with
  | none => (.nullCall, s)
  | some fp => (.ok (app fp s).1, (app fp s).2)

/-! ## `FdbCApi`: the table of function pointers -/

/-- The private function pointer members of `struct FdbCApi`. -/
structure FdbCApi (σ : Type) where
  -- Network
  selectApiVersion_ : Option (Int → Int → Lib σ fdb_error_t)
  getClientVersion_ : Option (Lib σ String)
  setNetworkOption_ : Option (FDBNetworkOption → Ptr → Int → Lib σ fdb_error_t)
  setupNetwork_ : Option (Lib σ fdb_error_t)
  runNetwork_ : Option (Lib σ fdb_error_t)
  stopNetwork_ : Option (Lib σ fdb_error_t)
  createDatabase_ : Option (String → Ptr → Lib σ fdb_error_t)
  -- Database
  databaseCreateTransaction_ : Option (Ptr → Ptr → Lib σ fdb_error_t)
  databaseSetOption_ : Option (Ptr → FDBDatabaseOption → Ptr → Int → Lib σ fdb_error_t)
  databaseDestroy_ : Option (Ptr → Lib σ Unit)
  databaseRebootWorker_ : Option (Ptr → Ptr → Int → fdb_bool_t → Int → Lib σ Ptr)
  databaseForceRecoveryWithDataLoss_ : Option (Ptr → Ptr → Int → Lib σ Ptr)
  databaseCreateSnapshot_ : Option (Ptr → Ptr → Int → Ptr → Int → Lib σ Ptr)
  databaseGetMainThreadBusyness_ : Option (Ptr → Lib σ Float)
  databaseGetServerProtocol_ : Option (Ptr → Nat → Lib σ Ptr)
  -- Transaction
  transactionSetOption_ : Option (Ptr → FDBTransactionOption → Ptr → Int → Lib σ fdb_error_t)
  transactionDestroy_ : Option (Ptr → Lib σ Unit)
  transactionSetReadVersion_ : Option (Ptr → Int → Lib σ Unit)
  transactionGetReadVersion_ : Option (Ptr → Lib σ Ptr)
  transactionGet_ : Option (Ptr → Ptr → Int → fdb_bool_t → Lib σ Ptr)
  transactionGetKey_ : Option (Ptr → Ptr → Int → fdb_bool_t → Int → fdb_bool_t → Lib σ Ptr)
  transactionGetAddressesForKey_ : Option (Ptr → Ptr → Int → Lib σ Ptr)
  transactionGetRange_ : Option (Ptr → Ptr → Int → fdb_bool_t → Int → Ptr → Int → fdb_bool_t → Int →
      Int → Int → FDBStreamingMode → Int → fdb_bool_t → fdb_bool_t → Lib σ Ptr)
  transactionGetVersionstamp_ : Option (Ptr → Lib σ Ptr)
  transactionSet_ : Option (Ptr → Ptr → Int → Ptr → Int → Lib σ Unit)
  transactionClear_ : Option (Ptr → Ptr → Int → Lib σ Unit)
  transactionClearRange_ : Option (Ptr → Ptr → Int → Ptr → Int → Lib σ Unit)
  transactionAtomicOp_ : Option (Ptr → Ptr → Int → Ptr → Int → FDBMutationType → Lib σ Unit)
  transactionGetEstimatedRangeSizeBytes_ : Option (Ptr → Ptr → Int → Ptr → Int → Lib σ Ptr)
  transactionGetRangeSplitPoints_ : Option (Ptr → Ptr → Int → Ptr → Int → Int → Lib σ Ptr)
  transactionCommit_ : Option (Ptr → Lib σ Ptr)
  transactionGetCommittedVersion_ : Option (Ptr → Ptr → Lib σ fdb_error_t)
  transactionGetApproximateSize_ : Option (Ptr → Lib σ Ptr)
  transactionWatch_ : Option (Ptr → Ptr → Int → Lib σ Ptr)
  transactionOnError_ : Option (Ptr → fdb_error_t → Lib σ Ptr)
  transactionReset_ : Option (Ptr → Lib σ Unit)
  transactionCancel_ : Option (Ptr → Lib σ Unit)
  transactionAddConflictRange_ : Option (Ptr → Ptr → Int → Ptr → Int → FDBConflictRangeType →
      Lib σ fdb_error_t)
  -- Future
  futureGetDatabase_ : Option (Ptr → Ptr → Lib σ fdb_error_t)
  futureGetInt64_ : Option (Ptr → Ptr → Lib σ fdb_error_t)
  futureGetUInt64_ : Option (Ptr → Ptr → Lib σ fdb_error_t)
  futureGetBool_ : Option (Ptr → Ptr → Lib σ fdb_error_t)
  futureGetError_ : Option (Ptr → Lib σ fdb_error_t)
  futureGetKey_ : Option (Ptr → Ptr → Ptr → Lib σ fdb_error_t)
  futureGetValue_ : Option (Ptr → Ptr → Ptr → Ptr → Lib σ fdb_error_t)
  futureGetStringArray_ : Option (Ptr → Ptr → Ptr → Lib σ fdb_error_t)
  futureGetKeyArray_ : Option (Ptr → Ptr → Ptr → Lib σ fdb_error_t)
  futureGetKeyValueArray_ : Option (Ptr → Ptr → Ptr → Ptr → Lib σ fdb_error_t)
  futureSetCallback_ : Option (Ptr → Ptr → Ptr → Lib σ fdb_error_t)
  futureCancel_ : Option (Ptr → Lib σ Unit)
  futureDestroy_ : Option (Ptr → Lib σ Unit)
  -- Legacy Support
  createCluster_ : Option (String → Lib σ Ptr)
  clusterCreateDatabase_ : Option (Ptr → Ptr → Int → Lib σ Ptr)
  clusterDestroy_ : Option (Ptr → Lib σ Unit)
  futureGetCluster_ : Option (Ptr → Ptr → Lib σ fdb_error_t)

variable {σ : Type}

/-! ### The `[[nodiscard]]` wrappers around the function pointers -/

/-- The wrapper `FdbCApi::selectApiVersion`. -/
def FdbCApi.selectApiVersion (api : FdbCApi σ) (runtimeVersion headerVersion : Int)
    : M σ fdb_error_t :=
  callPtr api.selectApiVersion_ (fun fp => fp runtimeVersion headerVersion)

/-- The wrapper `FdbCApi::getClientVersion`. -/
def FdbCApi.getClientVersion (api : FdbCApi σ) : M σ String :=
  if api.getClientVersion_.isNone then M.ret "unknown"
  else callPtr api.getClientVersion_ (fun fp => fp)

/-- The wrapper `FdbCApi::setNetworkOption`. -/
def FdbCApi.setNetworkOption (api : FdbCApi σ) (option : FDBNetworkOption) (value : Ptr)
    (valueLength : Int) : M σ fdb_error_t :=
  callPtr api.setNetworkOption_ (fun fp => fp option value valueLength)

/-- The wrapper `FdbCApi::setupNetwork`. -/
def FdbCApi.setupNetwork (api : FdbCApi σ) : M σ fdb_error_t :=
  callPtr api.setupNetwork_ (fun fp => fp)

/-- The wrapper `FdbCApi::runNetwork`. -/
def FdbCApi.runNetwork (api : FdbCApi σ) : M σ fdb_error_t :=
  callPtr api.runNetwork_ (fun fp => fp)

/-- The wrapper `FdbCApi::stopNetwork`. -/
def FdbCApi.stopNetwork (api : FdbCApi σ) : M σ fdb_error_t :=
  callPtr api.stopNetwork_ (fun fp => fp)

/-- The wrapper `FdbCApi::createDatabase`. -/
def FdbCApi.createDatabase (api : FdbCApi σ) (clusterFilePath : String) (db : Ptr)
    : M σ fdb_error_t :=
  callPtr api.createDatabase_ (fun fp => fp clusterFilePath db)

/-- The wrapper `FdbCApi::databaseCreateTransaction`. -/
def FdbCApi.databaseCreateTransaction (api : FdbCApi σ) (database tr : Ptr) : M σ fdb_error_t :=
  callPtr api.databaseCreateTransaction_ (fun fp => fp database tr)

/-- The wrapper `FdbCApi::databaseSetOption`. -/
def FdbCApi.databaseSetOption (api : FdbCApi σ) (database : Ptr) (option : FDBDatabaseOption)
    (value : Ptr) (valueLength : Int) : M σ fdb_error_t :=
  callPtr api.databaseSetOption_ (fun fp => fp database option value valueLength)

/-- The wrapper `FdbCApi::databaseDestroy`. -/
def FdbCApi.databaseDestroy (api : FdbCApi σ) (database : Ptr) : M σ Unit :=
  callPtr api.databaseDestroy_ (fun fp => fp database)

/-- The wrapper `FdbCApi::databaseRebootWorker`. -/
def FdbCApi.databaseRebootWorker (api : FdbCApi σ) (database address : Ptr) (addressLength : Int)
    (check : fdb_bool_t) (duration : Int) : M σ Ptr :=
  if api.databaseRebootWorker_.isNone then M.throw Error.unsupported_operation
  else callPtr api.databaseRebootWorker_ (fun fp => fp database address addressLength check
    duration)

/-- The wrapper `FdbCApi::databaseForceRecoveryWithDataLoss`. -/
def FdbCApi.databaseForceRecoveryWithDataLoss (api : FdbCApi σ) (database dcid : Ptr)
    (dcidLength : Int) : M σ Ptr :=
  if api.databaseForceRecoveryWithDataLoss_.isNone then M.throw Error.unsupported_operation
  else callPtr api.databaseForceRecoveryWithDataLoss_ (fun fp => fp database dcid dcidLength)

/-- The wrapper `FdbCApi::databaseCreateSnapshot`. -/
def FdbCApi.databaseCreateSnapshot (api : FdbCApi σ) (database uid : Ptr) (uidLength : Int)
    (snapshotCommmand : Ptr) (snapshotCommandLength : Int) : M σ Ptr :=
  if api.databaseCreateSnapshot_.isNone then M.throw Error.unsupported_operation
  else callPtr api.databaseCreateSnapshot_ (fun fp => fp database uid uidLength snapshotCommmand
    snapshotCommandLength)

/-- The wrapper `FdbCApi::databaseGetMainThreadBusyness`. -/
def FdbCApi.databaseGetMainThreadBusyness (api : FdbCApi σ) (database : Ptr) : M σ Float :=
  if api.databaseGetMainThreadBusyness_.isNone then M.ret 0
  else callPtr api.databaseGetMainThreadBusyness_ (fun fp => fp database)

/-- The wrapper `FdbCApi::databaseGetServerProtocol`. -/
def FdbCApi.databaseGetServerProtocol (api : FdbCApi σ) (database : Ptr) (expectedVersion : Nat)
    : M σ Ptr :=
  M.seq (ASSERT api.databaseGetServerProtocol_.isSome)
    (callPtr api.databaseGetServerProtocol_ (fun fp => fp database expectedVersion))

/-- The wrapper `FdbCApi::transactionSetOption`. -/
def FdbCApi.transactionSetOption (api : FdbCApi σ) (tr : Ptr) (option : FDBTransactionOption)
    (value : Ptr) (valueLength : Int) : M σ fdb_error_t :=
  callPtr api.transactionSetOption_ (fun fp => fp tr option value valueLength)

/-- The wrapper `FdbCApi::transactionDestroy`. -/
def FdbCApi.transactionDestroy (api : FdbCApi σ) (tr : Ptr) : M σ Unit :=
  callPtr api.transactionDestroy_ (fun fp => fp tr)

/-- The wrapper `FdbCApi::transactionSetReadVersion`. -/
def FdbCApi.transactionSetReadVersion (api : FdbCApi σ) (tr : Ptr) (version : Int) : M σ Unit :=
  callPtr api.transactionSetReadVersion_ (fun fp => fp tr version)

/-- The wrapper `FdbCApi::transactionGetReadVersion`. -/
def FdbCApi.transactionGetReadVersion (api : FdbCApi σ) (tr : Ptr) : M σ Ptr :=
  callPtr api.transactionGetReadVersion_ (fun fp => fp tr)

/-- The wrapper `FdbCApi::transactionGet`. -/
def FdbCApi.transactionGet (api : FdbCApi σ) (tr keyName : Ptr) (keyNameLength : Int)
    (snapshot : fdb_bool_t) : M σ Ptr :=
  callPtr api.transactionGet_ (fun fp => fp tr keyName keyNameLength snapshot)

/-- The wrapper `FdbCApi::transactionGetKey`. -/
def FdbCApi.transactionGetKey (api : FdbCApi σ) (tr keyName : Ptr) (keyNameLength : Int)
    (orEqual : fdb_bool_t) (offset : Int) (snapshot : fdb_bool_t) : M σ Ptr :=
  callPtr api.transactionGetKey_ (fun fp => fp tr keyName keyNameLength orEqual offset snapshot)

/-- The wrapper `FdbCApi::transactionGetAddressesForKey`. -/
def FdbCApi.transactionGetAddressesForKey (api : FdbCApi σ) (tr keyName : Ptr) (keyNameLength : Int)
    : M σ Ptr :=
  callPtr api.transactionGetAddressesForKey_ (fun fp => fp tr keyName keyNameLength)

/-- The wrapper `FdbCApi::transactionGetRange`. -/
def FdbCApi.transactionGetRange (api : FdbCApi σ) (tr beginKeyName : Ptr) (beginKeyNameLength : Int)
    (beginOrEqual : fdb_bool_t) (beginOffset : Int) (endKeyName : Ptr) (endKeyNameLength : Int)
    (endOrEqual : fdb_bool_t) (endOffset limit targetBytes : Int) (mode : FDBStreamingMode)
    (iteration : Int) (snapshot reverse : fdb_bool_t) : M σ Ptr :=
  callPtr api.transactionGetRange_ (fun fp => fp tr beginKeyName beginKeyNameLength beginOrEqual
    beginOffset endKeyName endKeyNameLength endOrEqual endOffset limit targetBytes mode iteration
    snapshot reverse)

/-- The wrapper `FdbCApi::transactionGetVersionstamp`. -/
def FdbCApi.transactionGetVersionstamp (api : FdbCApi σ) (tr : Ptr) : M σ Ptr :=
  if api.transactionGetVersionstamp_.isNone then M.throw Error.unsupported_operation
  else callPtr api.transactionGetVersionstamp_ (fun fp => fp tr)

/-- The wrapper `FdbCApi::transactionSet`. -/
def FdbCApi.transactionSet (api : FdbCApi σ) (tr keyName : Ptr) (keyNameLength : Int) (value : Ptr)
    (valueLength : Int) : M σ Unit :=
  callPtr api.transactionSet_ (fun fp => fp tr keyName keyNameLength value valueLength)

/-- The wrapper `FdbCApi::transactionClear`. -/
def FdbCApi.transactionClear (api : FdbCApi σ) (tr keyName : Ptr) (keyNameLength : Int)
    : M σ Unit :=
  callPtr api.transactionClear_ (fun fp => fp tr keyName keyNameLength)

/-- The wrapper `FdbCApi::transactionClearRange`. -/
def FdbCApi.transactionClearRange (api : FdbCApi σ) (tr beginKeyName : Ptr)
    (beginKeyNameLength : Int) (endKeyName : Ptr) (endKeyNameLength : Int) : M σ Unit :=
  callPtr api.transactionClearRange_ (fun fp => fp tr beginKeyName beginKeyNameLength endKeyName
    endKeyNameLength)

/-- The wrapper `FdbCApi::transactionAtomicOp`. -/
def FdbCApi.transactionAtomicOp (api : FdbCApi σ) (tr keyName : Ptr) (keyNameLength : Int)
    (param : Ptr) (paramLength : Int) (operationType : FDBMutationType) : M σ Unit :=
  callPtr api.transactionAtomicOp_ (fun fp => fp tr keyName keyNameLength param paramLength
    operationType)

/-- The wrapper `FdbCApi::transactionGetEstimatedRangeSizeBytes`. -/
def FdbCApi.transactionGetEstimatedRangeSizeBytes (api : FdbCApi σ) (tr begin_key_name : Ptr)
    (begin_key_name_length : Int) (end_key_name : Ptr) (end_key_name_length : Int) : M σ Ptr :=
  if api.transactionGetEstimatedRangeSizeBytes_.isNone then M.throw Error.unsupported_operation
  else callPtr api.transactionGetEstimatedRangeSizeBytes_ (fun fp => fp tr begin_key_name
    begin_key_name_length end_key_name end_key_name_length)

/-- The wrapper `FdbCApi::transactionGetRangeSplitPoints`. -/
def FdbCApi.transactionGetRangeSplitPoints (api : FdbCApi σ) (tr begin_key_name : Ptr)
    (begin_key_name_length : Int) (end_key_name : Ptr) (end_key_name_length chunkSize : Int)
    : M σ Ptr :=
  if api.transactionGetRangeSplitPoints_.isNone then M.throw Error.unsupported_operation
  else callPtr api.transactionGetRangeSplitPoints_ (fun fp => fp tr begin_key_name
    begin_key_name_length end_key_name end_key_name_length chunkSize)

/-- The wrapper `FdbCApi::transactionCommit`. -/
def FdbCApi.transactionCommit (api : FdbCApi σ) (tr : Ptr) : M σ Ptr :=
  callPtr api.transactionCommit_ (fun fp => fp tr)

/-- The wrapper `FdbCApi::transactionGetCommittedVersion`. -/
def FdbCApi.transactionGetCommittedVersion (api : FdbCApi σ) (tr outVersion : Ptr)
    : M σ fdb_error_t :=
  callPtr api.transactionGetCommittedVersion_ (fun fp => fp tr outVersion)

/-- The wrapper `FdbCApi::transactionGetApproximateSize`. -/
def FdbCApi.transactionGetApproximateSize (api : FdbCApi σ) (tr : Ptr) : M σ Ptr :=
  if api.transactionGetApproximateSize_.isNone then M.throw Error.unsupported_operation
  else callPtr api.transactionGetApproximateSize_ (fun fp => fp tr)

/-- The wrapper `FdbCApi::transactionWatch`. -/
def FdbCApi.transactionWatch (api : FdbCApi σ) (tr keyName : Ptr) (keyNameLength : Int) : M σ Ptr :=
  callPtr api.transactionWatch_ (fun fp => fp tr keyName keyNameLength)

/-- The wrapper `FdbCApi::transactionOnError`. -/
def FdbCApi.transactionOnError (api : FdbCApi σ) (tr : Ptr) (error : fdb_error_t) : M σ Ptr :=
  callPtr api.transactionOnError_ (fun fp => fp tr error)

/-- The wrapper `FdbCApi::transactionReset`. -/
def FdbCApi.transactionReset (api : FdbCApi σ) (tr : Ptr) : M σ Unit :=
  callPtr api.transactionReset_ (fun fp => fp tr)

/-- The wrapper `FdbCApi::transactionCancel`. -/
def FdbCApi.transactionCancel (api : FdbCApi σ) (tr : Ptr) : M σ Unit :=
  callPtr api.transactionCancel_ (fun fp => fp tr)

/-- The wrapper `FdbCApi::transactionAddConflictRange`. -/
def FdbCApi.transactionAddConflictRange (api : FdbCApi σ) (tr beginKeyName : Ptr)
    (beginKeyNameLength : Int) (endKeyName : Ptr) (endKeyNameLength : Int)
    (type : FDBConflictRangeType) : M σ fdb_error_t :=
  callPtr api.transactionAddConflictRange_ (fun fp => fp tr beginKeyName beginKeyNameLength
    endKeyName endKeyNameLength type)

/-- The wrapper `FdbCApi::futureGetDatabase`. -/
def FdbCApi.futureGetDatabase (api : FdbCApi σ) (f outDb : Ptr) : M σ fdb_error_t :=
  callPtr api.futureGetDatabase_ (fun fp => fp f outDb)

/-- The wrapper `FdbCApi::futureGetInt64`. -/
def FdbCApi.futureGetInt64 (api : FdbCApi σ) (f outValue : Ptr) : M σ fdb_error_t :=
  callPtr api.futureGetInt64_ (fun fp => fp f outValue)

/-- The wrapper `FdbCApi::futureGetUInt64`. -/
def FdbCApi.futureGetUInt64 (api : FdbCApi σ) (f outValue : Ptr) : M σ fdb_error_t :=
  callPtr api.futureGetUInt64_ (fun fp => fp f outValue)

/-- The wrapper `FdbCApi::futureGetBool`. -/
def FdbCApi.futureGetBool (api : FdbCApi σ) (f outValue : Ptr) : M σ fdb_error_t :=
  callPtr api.futureGetBool_ (fun fp => fp f outValue)

/-- The wrapper `FdbCApi::futureGetError`. -/
def FdbCApi.futureGetError (api : FdbCApi σ) (f : Ptr) : M σ fdb_error_t :=
  callPtr api.futureGetError_ (fun fp => fp f)

/-- The wrapper `FdbCApi::futureGetKey`. -/
def FdbCApi.futureGetKey (api : FdbCApi σ) (f outKey outKeyLength : Ptr) : M σ fdb_error_t :=
  callPtr api.futureGetKey_ (fun fp => fp f outKey outKeyLength)

/-- The wrapper `FdbCApi::futureGetValue`. -/
def FdbCApi.futureGetValue (api : FdbCApi σ) (f outPresent outValue outValueLength : Ptr)
    : M σ fdb_error_t :=
  callPtr api.futureGetValue_ (fun fp => fp f outPresent outValue outValueLength)

/-- The wrapper `FdbCApi::futureGetStringArray`. -/
def FdbCApi.futureGetStringArray (api : FdbCApi σ) (f outStrings outCount : Ptr)
    : M σ fdb_error_t :=
  callPtr api.futureGetStringArray_ (fun fp => fp f outStrings outCount)

/-- The wrapper `FdbCApi::futureGetKeyArray`. -/
def FdbCApi.futureGetKeyArray (api : FdbCApi σ) (f outKeys outCount : Ptr) : M σ fdb_error_t :=
  callPtr api.futureGetKeyArray_ (fun fp => fp f outKeys outCount)

/-- The wrapper `FdbCApi::futureGetKeyValueArray`. -/
def FdbCApi.futureGetKeyValueArray (api : FdbCApi σ) (f outKV outCount outMore : Ptr)
    : M σ fdb_error_t :=
  callPtr api.futureGetKeyValueArray_ (fun fp => fp f outKV outCount outMore)

/-- The wrapper `FdbCApi::futureSetCallback`. -/
def FdbCApi.futureSetCallback (api : FdbCApi σ) (f callback callback_parameter : Ptr)
    : M σ fdb_error_t :=
  callPtr api.futureSetCallback_ (fun fp => fp f callback callback_parameter)

/-- The wrapper `FdbCApi::futureCancel`. -/
def FdbCApi.futureCancel (api : FdbCApi σ) (f : Ptr) : M σ Unit :=
  callPtr api.futureCancel_ (fun fp => fp f)

/-- The wrapper `FdbCApi::futureDestroy`. -/
def FdbCApi.futureDestroy (api : FdbCApi σ) (f : Ptr) : M σ Unit :=
  callPtr api.futureDestroy_ (fun fp => fp f)

/-- The wrapper `FdbCApi::createCluster`. -/
def FdbCApi.createCluster (api : FdbCApi σ) (clusterFilePath : String) : M σ Ptr :=
  callPtr api.createCluster_ (fun fp => fp clusterFilePath)

/-- The wrapper `FdbCApi::clusterCreateDatabase`. -/
def FdbCApi.clusterCreateDatabase (api : FdbCApi σ) (cluster dbName : Ptr) (dbNameLength : Int)
    : M σ Ptr :=
  callPtr api.clusterCreateDatabase_ (fun fp => fp cluster dbName dbNameLength)

/-- The wrapper `FdbCApi::clusterDestroy`. -/
def FdbCApi.clusterDestroy (api : FdbCApi σ) (cluster : Ptr) : M σ Unit :=
  callPtr api.clusterDestroy_ (fun fp => fp cluster)

/-- The wrapper `FdbCApi::futureGetCluster`. -/
def FdbCApi.futureGetCluster (api : FdbCApi σ) (f outCluster : Ptr) : M σ fdb_error_t :=
  callPtr api.futureGetCluster_ (fun fp => fp f outCluster)

/-! ## Observing calls -/

/-- One call received by the loaded library: the entry point and the arguments it was given. -/
inductive Call where
  | selectApiVersion (runtimeVersion headerVersion : Int)
  | getClientVersion
  | setNetworkOption (option : FDBNetworkOption) (value : Ptr) (valueLength : Int)
  | setupNetwork
  | runNetwork
  | stopNetwork
  | createDatabase (clusterFilePath : String) (db : Ptr)
  | databaseCreateTransaction (database tr : Ptr)
  | databaseSetOption (database : Ptr) (option : FDBDatabaseOption) (value : Ptr)
      (valueLength : Int)
  | databaseDestroy (database : Ptr)
  | databaseRebootWorker (database address : Ptr) (addressLength : Int) (check : fdb_bool_t)
      (duration : Int)
  | databaseForceRecoveryWithDataLoss (database dcid : Ptr) (dcidLength : Int)
  | databaseCreateSnapshot (database uid : Ptr) (uidLength : Int) (snapshotCommmand : Ptr)
      (snapshotCommandLength : Int)
  | databaseGetMainThreadBusyness (database : Ptr)
  | databaseGetServerProtocol (database : Ptr) (expectedVersion : Nat)
  | transactionSetOption (tr : Ptr) (option : FDBTransactionOption) (value : Ptr)
      (valueLength : Int)
  | transactionDestroy (tr : Ptr)
  | transactionSetReadVersion (tr : Ptr) (version : Int)
  | transactionGetReadVersion (tr : Ptr)
  | transactionGet (tr keyName : Ptr) (keyNameLength : Int) (snapshot : fdb_bool_t)
  | transactionGetKey (tr keyName : Ptr) (keyNameLength : Int) (orEqual : fdb_bool_t) (offset : Int)
      (snapshot : fdb_bool_t)
  | transactionGetAddressesForKey (tr keyName : Ptr) (keyNameLength : Int)
  | transactionGetRange (tr beginKeyName : Ptr) (beginKeyNameLength : Int)
      (beginOrEqual : fdb_bool_t) (beginOffset : Int) (endKeyName : Ptr) (endKeyNameLength : Int)
      (endOrEqual : fdb_bool_t) (endOffset limit targetBytes : Int) (mode : FDBStreamingMode)
      (iteration : Int) (snapshot reverse : fdb_bool_t)
  | transactionGetVersionstamp (tr : Ptr)
  | transactionSet (tr keyName : Ptr) (keyNameLength : Int) (value : Ptr) (valueLength : Int)
  | transactionClear (tr keyName : Ptr) (keyNameLength : Int)
  | transactionClearRange (tr beginKeyName : Ptr) (beginKeyNameLength : Int) (endKeyName : Ptr)
      (endKeyNameLength : Int)
  | transactionAtomicOp (tr keyName : Ptr) (keyNameLength : Int) (param : Ptr) (paramLength : Int)
      (operationType : FDBMutationType)
  | transactionGetEstimatedRangeSizeBytes (tr begin_key_name : Ptr) (begin_key_name_length : Int)
      (end_key_name : Ptr) (end_key_name_length : Int)
  | transactionGetRangeSplitPoints (tr begin_key_name : Ptr) (begin_key_name_length : Int)
      (end_key_name : Ptr) (end_key_name_length chunkSize : Int)
  | transactionCommit (tr : Ptr)
  | transactionGetCommittedVersion (tr outVersion : Ptr)
  | transactionGetApproximateSize (tr : Ptr)
  | transactionWatch (tr keyName : Ptr) (keyNameLength : Int)
  | transactionOnError (tr : Ptr) (error : fdb_error_t)
  | transactionReset (tr : Ptr)
  | transactionCancel (tr : Ptr)
  | transactionAddConflictRange (tr beginKeyName : Ptr) (beginKeyNameLength : Int)
      (endKeyName : Ptr) (endKeyNameLength : Int) (type : FDBConflictRangeType)
  | futureGetDatabase (f outDb : Ptr)
  | futureGetInt64 (f outValue : Ptr)
  | futureGetUInt64 (f outValue : Ptr)
  | futureGetBool (f outValue : Ptr)
  | futureGetError (f : Ptr)
  | futureGetKey (f outKey outKeyLength : Ptr)
  | futureGetValue (f outPresent outValue outValueLength : Ptr)
  | futureGetStringArray (f outStrings outCount : Ptr)
  | futureGetKeyArray (f outKeys outCount : Ptr)
  | futureGetKeyValueArray (f outKV outCount outMore : Ptr)
  | futureSetCallback (f callback callback_parameter : Ptr)
  | futureCancel (f : Ptr)
  | futureDestroy (f : Ptr)
  | createCluster (clusterFilePath : String)
  | clusterCreateDatabase (cluster dbName : Ptr) (dbNameLength : Int)
  | clusterDestroy (cluster : Ptr)
  | futureGetCluster (f outCluster : Ptr)

/-- Names of the entry points of the table. -/
inductive Entry where
  | selectApiVersion | getClientVersion | setNetworkOption | setupNetwork | runNetwork
  | stopNetwork | createDatabase | databaseCreateTransaction | databaseSetOption | databaseDestroy
  | databaseRebootWorker | databaseForceRecoveryWithDataLoss | databaseCreateSnapshot
  | databaseGetMainThreadBusyness | databaseGetServerProtocol | transactionSetOption
  | transactionDestroy | transactionSetReadVersion | transactionGetReadVersion | transactionGet
  | transactionGetKey | transactionGetAddressesForKey | transactionGetRange
  | transactionGetVersionstamp | transactionSet | transactionClear | transactionClearRange
  | transactionAtomicOp | transactionGetEstimatedRangeSizeBytes | transactionGetRangeSplitPoints
  | transactionCommit | transactionGetCommittedVersion | transactionGetApproximateSize
  | transactionWatch | transactionOnError | transactionReset | transactionCancel
  | transactionAddConflictRange | futureGetDatabase | futureGetInt64 | futureGetUInt64
  | futureGetBool | futureGetError | futureGetKey | futureGetValue | futureGetStringArray
  | futureGetKeyArray | futureGetKeyValueArray | futureSetCallback | futureCancel | futureDestroy
  | createCluster | clusterCreateDatabase | clusterDestroy | futureGetCluster
  deriving DecidableEq

/-- The entry point a call went to. -/
def Call.entry : Call → Entry
  | .selectApiVersion .. => .selectApiVersion
  | .getClientVersion .. => .getClientVersion
  | .setNetworkOption .. => .setNetworkOption
  | .setupNetwork .. => .setupNetwork
  | .runNetwork .. => .runNetwork
  | .stopNetwork .. => .stopNetwork
  | .createDatabase .. => .createDatabase
  | .databaseCreateTransaction .. => .databaseCreateTransaction
  | .databaseSetOption .. => .databaseSetOption
  | .databaseDestroy .. => .databaseDestroy
  | .databaseRebootWorker .. => .databaseRebootWorker
  | .databaseForceRecoveryWithDataLoss .. => .databaseForceRecoveryWithDataLoss
  | .databaseCreateSnapshot .. => .databaseCreateSnapshot
  | .databaseGetMainThreadBusyness .. => .databaseGetMainThreadBusyness
  | .databaseGetServerProtocol .. => .databaseGetServerProtocol
  | .transactionSetOption .. => .transactionSetOption
  | .transactionDestroy .. => .transactionDestroy
  | .transactionSetReadVersion .. => .transactionSetReadVersion
  | .transactionGetReadVersion .. => .transactionGetReadVersion
  | .transactionGet .. => .transactionGet
  | .transactionGetKey .. => .transactionGetKey
  | .transactionGetAddressesForKey .. => .transactionGetAddressesForKey
  | .transactionGetRange .. => .transactionGetRange
  | .transactionGetVersionstamp .. => .transactionGetVersionstamp
  | .transactionSet .. => .transactionSet
  | .transactionClear .. => .transactionClear
  | .transactionClearRange .. => .transactionClearRange
  | .transactionAtomicOp .. => .transactionAtomicOp
  | .transactionGetEstimatedRangeSizeBytes .. => .transactionGetEstimatedRangeSizeBytes
  | .transactionGetRangeSplitPoints .. => .transactionGetRangeSplitPoints
  | .transactionCommit .. => .transactionCommit
  | .transactionGetCommittedVersion .. => .transactionGetCommittedVersion
  | .transactionGetApproximateSize .. => .transactionGetApproximateSize
  | .transactionWatch .. => .transactionWatch
  | .transactionOnError .. => .transactionOnError
  | .transactionReset .. => .transactionReset
  | .transactionCancel .. => .transactionCancel
  | .transactionAddConflictRange .. => .transactionAddConflictRange
  | .futureGetDatabase .. => .futureGetDatabase
  | .futureGetInt64 .. => .futureGetInt64
  | .futureGetUInt64 .. => .futureGetUInt64
  | .futureGetBool .. => .futureGetBool
  | .futureGetError .. => .futureGetError
  | .futureGetKey .. => .futureGetKey
  | .futureGetValue .. => .futureGetValue
  | .futureGetStringArray .. => .futureGetStringArray
  | .futureGetKeyArray .. => .futureGetKeyArray
  | .futureGetKeyValueArray .. => .futureGetKeyValueArray
  | .futureSetCallback .. => .futureSetCallback
  | .futureCancel .. => .futureCancel
  | .futureDestroy .. => .futureDestroy
  | .createCluster .. => .createCluster
  | .clusterCreateDatabase .. => .clusterCreateDatabase
  | .clusterDestroy .. => .clusterDestroy
  | .futureGetCluster .. => .futureGetCluster

/-- A library function that also appends the call it received to a log. -/
def logged {α : Type} (c : Call) (fn : Lib σ α) : Lib (σ × List Call) α := fun w =>
  ((fn w.1).1, ((fn w.1).2, w.2 ++ [c]))

/-- Replace the function behind a pointer; a null pointer stays null. -/
@[noinline]
def instrument {F G : Type} (p : Option F) (g : F → G) : Option G :=
  match p with
  | none => none
  | some fp => some (g fp)

/-- The same library with every bound entry point recording the arguments it is called with.
Null pointers stay null. -/
def record (api : FdbCApi σ) : FdbCApi (σ × List Call) where
  selectApiVersion_ := instrument api.selectApiVersion_ (fun fp runtimeVersion headerVersion =>
      logged (Call.selectApiVersion runtimeVersion headerVersion) (fp runtimeVersion headerVersion))
  getClientVersion_ := instrument api.getClientVersion_ (fun fp => logged Call.getClientVersion fp)
  setNetworkOption_ := instrument api.setNetworkOption_ (fun fp option value valueLength => logged
      (Call.setNetworkOption option value valueLength) (fp option value valueLength))
  setupNetwork_ := instrument api.setupNetwork_ (fun fp => logged Call.setupNetwork fp)
  runNetwork_ := instrument api.runNetwork_ (fun fp => logged Call.runNetwork fp)
  stopNetwork_ := instrument api.stopNetwork_ (fun fp => logged Call.stopNetwork fp)
  createDatabase_ := instrument api.createDatabase_ (fun fp clusterFilePath db => logged
      (Call.createDatabase clusterFilePath db) (fp clusterFilePath db))
  databaseCreateTransaction_ := instrument api.databaseCreateTransaction_ (fun fp database tr =>
      logged (Call.databaseCreateTransaction database tr) (fp database tr))
  databaseSetOption_ := instrument api.databaseSetOption_ (fun fp database option value valueLength
      => logged (Call.databaseSetOption database option value valueLength) (fp database option value
      valueLength))
  databaseDestroy_ := instrument api.databaseDestroy_ (fun fp database => logged
      (Call.databaseDestroy database) (fp database))
  databaseRebootWorker_ := instrument api.databaseRebootWorker_ (fun fp database address
      addressLength check duration => logged (Call.databaseRebootWorker database address
      addressLength check duration) (fp database address addressLength check duration))
  databaseForceRecoveryWithDataLoss_ := instrument api.databaseForceRecoveryWithDataLoss_ (fun fp
      database dcid dcidLength => logged (Call.databaseForceRecoveryWithDataLoss database dcid
      dcidLength) (fp database dcid dcidLength))
  databaseCreateSnapshot_ := instrument api.databaseCreateSnapshot_ (fun fp database uid uidLength
      snapshotCommmand snapshotCommandLength => logged (Call.databaseCreateSnapshot database uid
      uidLength snapshotCommmand snapshotCommandLength) (fp database uid uidLength snapshotCommmand
      snapshotCommandLength))
  databaseGetMainThreadBusyness_ := instrument api.databaseGetMainThreadBusyness_ (fun fp database
      => logged (Call.databaseGetMainThreadBusyness database) (fp database))
  databaseGetServerProtocol_ := instrument api.databaseGetServerProtocol_ (fun fp database
      expectedVersion => logged (Call.databaseGetServerProtocol database expectedVersion) (fp
      database expectedVersion))
  transactionSetOption_ := instrument api.transactionSetOption_ (fun fp tr option value valueLength
      => logged (Call.transactionSetOption tr option value valueLength) (fp tr option value
      valueLength))
  transactionDestroy_ := instrument api.transactionDestroy_ (fun fp tr => logged
      (Call.transactionDestroy tr) (fp tr))
  transactionSetReadVersion_ := instrument api.transactionSetReadVersion_ (fun fp tr version =>
      logged (Call.transactionSetReadVersion tr version) (fp tr version))
  transactionGetReadVersion_ := instrument api.transactionGetReadVersion_ (fun fp tr => logged
      (Call.transactionGetReadVersion tr) (fp tr))
  transactionGet_ := instrument api.transactionGet_ (fun fp tr keyName keyNameLength snapshot =>
      logged (Call.transactionGet tr keyName keyNameLength snapshot) (fp tr keyName keyNameLength
      snapshot))
  transactionGetKey_ := instrument api.transactionGetKey_ (fun fp tr keyName keyNameLength orEqual
      offset snapshot => logged (Call.transactionGetKey tr keyName keyNameLength orEqual offset
      snapshot) (fp tr keyName keyNameLength orEqual offset snapshot))
  transactionGetAddressesForKey_ := instrument api.transactionGetAddressesForKey_ (fun fp tr keyName
      keyNameLength => logged (Call.transactionGetAddressesForKey tr keyName keyNameLength) (fp tr
      keyName keyNameLength))
  transactionGetRange_ := instrument api.transactionGetRange_ (fun fp tr beginKeyName
      beginKeyNameLength beginOrEqual beginOffset endKeyName endKeyNameLength endOrEqual endOffset
      limit targetBytes mode iteration snapshot reverse => logged (Call.transactionGetRange tr
      beginKeyName beginKeyNameLength beginOrEqual beginOffset endKeyName endKeyNameLength
      endOrEqual endOffset limit targetBytes mode iteration snapshot reverse) (fp tr beginKeyName
      beginKeyNameLength beginOrEqual beginOffset endKeyName endKeyNameLength endOrEqual endOffset
      limit targetBytes mode iteration snapshot reverse))
  transactionGetVersionstamp_ := instrument api.transactionGetVersionstamp_ (fun fp tr => logged
      (Call.transactionGetVersionstamp tr) (fp tr))
  transactionSet_ := instrument api.transactionSet_ (fun fp tr keyName keyNameLength value
      valueLength => logged (Call.transactionSet tr keyName keyNameLength value valueLength) (fp tr
      keyName keyNameLength value valueLength))
  transactionClear_ := instrument api.transactionClear_ (fun fp tr keyName keyNameLength => logged
      (Call.transactionClear tr keyName keyNameLength) (fp tr keyName keyNameLength))
  transactionClearRange_ := instrument api.transactionClearRange_ (fun fp tr beginKeyName
      beginKeyNameLength endKeyName endKeyNameLength => logged (Call.transactionClearRange tr
      beginKeyName beginKeyNameLength endKeyName endKeyNameLength) (fp tr beginKeyName
      beginKeyNameLength endKeyName endKeyNameLength))
  transactionAtomicOp_ := instrument api.transactionAtomicOp_ (fun fp tr keyName keyNameLength param
      paramLength operationType => logged (Call.transactionAtomicOp tr keyName keyNameLength param
      paramLength operationType) (fp tr keyName keyNameLength param paramLength operationType))
  transactionGetEstimatedRangeSizeBytes_ := instrument api.transactionGetEstimatedRangeSizeBytes_
      (fun fp tr begin_key_name begin_key_name_length end_key_name end_key_name_length => logged
      (Call.transactionGetEstimatedRangeSizeBytes tr begin_key_name begin_key_name_length
      end_key_name end_key_name_length) (fp tr begin_key_name begin_key_name_length end_key_name
      end_key_name_length))
  transactionGetRangeSplitPoints_ := instrument api.transactionGetRangeSplitPoints_ (fun fp tr
      begin_key_name begin_key_name_length end_key_name end_key_name_length chunkSize => logged
      (Call.transactionGetRangeSplitPoints tr begin_key_name begin_key_name_length end_key_name
      end_key_name_length chunkSize) (fp tr begin_key_name begin_key_name_length end_key_name
      end_key_name_length chunkSize))
  transactionCommit_ := instrument api.transactionCommit_ (fun fp tr => logged
      (Call.transactionCommit tr) (fp tr))
  transactionGetCommittedVersion_ := instrument api.transactionGetCommittedVersion_ (fun fp tr
      outVersion => logged (Call.transactionGetCommittedVersion tr outVersion) (fp tr outVersion))
  transactionGetApproximateSize_ := instrument api.transactionGetApproximateSize_ (fun fp tr =>
      logged (Call.transactionGetApproximateSize tr) (fp tr))
  transactionWatch_ := instrument api.transactionWatch_ (fun fp tr keyName keyNameLength => logged
      (Call.transactionWatch tr keyName keyNameLength) (fp tr keyName keyNameLength))
  transactionOnError_ := instrument api.transactionOnError_ (fun fp tr error => logged
      (Call.transactionOnError tr error) (fp tr error))
  transactionReset_ := instrument api.transactionReset_ (fun fp tr => logged (Call.transactionReset
      tr) (fp tr))
  transactionCancel_ := instrument api.transactionCancel_ (fun fp tr => logged
      (Call.transactionCancel tr) (fp tr))
  transactionAddConflictRange_ := instrument api.transactionAddConflictRange_ (fun fp tr
      beginKeyName beginKeyNameLength endKeyName endKeyNameLength type => logged
      (Call.transactionAddConflictRange tr beginKeyName beginKeyNameLength endKeyName
      endKeyNameLength type) (fp tr beginKeyName beginKeyNameLength endKeyName endKeyNameLength
      type))
  futureGetDatabase_ := instrument api.futureGetDatabase_ (fun fp f outDb => logged
      (Call.futureGetDatabase f outDb) (fp f outDb))
  futureGetInt64_ := instrument api.futureGetInt64_ (fun fp f outValue => logged
      (Call.futureGetInt64 f outValue) (fp f outValue))
  futureGetUInt64_ := instrument api.futureGetUInt64_ (fun fp f outValue => logged
      (Call.futureGetUInt64 f outValue) (fp f outValue))
  futureGetBool_ := instrument api.futureGetBool_ (fun fp f outValue => logged (Call.futureGetBool f
      outValue) (fp f outValue))
  futureGetError_ := instrument api.futureGetError_ (fun fp f => logged (Call.futureGetError f) (fp
      f))
  futureGetKey_ := instrument api.futureGetKey_ (fun fp f outKey outKeyLength => logged
      (Call.futureGetKey f outKey outKeyLength) (fp f outKey outKeyLength))
  futureGetValue_ := instrument api.futureGetValue_ (fun fp f outPresent outValue outValueLength =>
      logged (Call.futureGetValue f outPresent outValue outValueLength) (fp f outPresent outValue
      outValueLength))
  futureGetStringArray_ := instrument api.futureGetStringArray_ (fun fp f outStrings outCount =>
      logged (Call.futureGetStringArray f outStrings outCount) (fp f outStrings outCount))
  futureGetKeyArray_ := instrument api.futureGetKeyArray_ (fun fp f outKeys outCount => logged
      (Call.futureGetKeyArray f outKeys outCount) (fp f outKeys outCount))
  futureGetKeyValueArray_ := instrument api.futureGetKeyValueArray_ (fun fp f outKV outCount outMore
      => logged (Call.futureGetKeyValueArray f outKV outCount outMore) (fp f outKV outCount
      outMore))
  futureSetCallback_ := instrument api.futureSetCallback_ (fun fp f callback callback_parameter =>
      logged (Call.futureSetCallback f callback callback_parameter) (fp f callback
      callback_parameter))
  futureCancel_ := instrument api.futureCancel_ (fun fp f => logged (Call.futureCancel f) (fp f))
  futureDestroy_ := instrument api.futureDestroy_ (fun fp f => logged (Call.futureDestroy f) (fp f))
  createCluster_ := instrument api.createCluster_ (fun fp clusterFilePath => logged
      (Call.createCluster clusterFilePath) (fp clusterFilePath))
  clusterCreateDatabase_ := instrument api.clusterCreateDatabase_ (fun fp cluster dbName
      dbNameLength => logged (Call.clusterCreateDatabase cluster dbName dbNameLength) (fp cluster
      dbName dbNameLength))
  clusterDestroy_ := instrument api.clusterDestroy_ (fun fp cluster => logged (Call.clusterDestroy
      cluster) (fp cluster))
  futureGetCluster_ := instrument api.futureGetCluster_ (fun fp f outCluster => logged
      (Call.futureGetCluster f outCluster) (fp f outCluster))

/-- The table with the pointer of entry `e` set to null. -/
def unbind (e : Entry) (api : FdbCApi σ) : FdbCApi σ :=
  match e with
  | .selectApiVersion => { api with selectApiVersion_ := none }
  | .getClientVersion => { api with getClientVersion_ := none }
  | .setNetworkOption => { api with setNetworkOption_ := none }
  | .setupNetwork => { api with setupNetwork_ := none }
  | .runNetwork => { api with runNetwork_ := none }
  | .stopNetwork => { api with stopNetwork_ := none }
  | .createDatabase => { api with createDatabase_ := none }
  | .databaseCreateTransaction => { api with databaseCreateTransaction_ := none }
  | .databaseSetOption => { api with databaseSetOption_ := none }
  | .databaseDestroy => { api with databaseDestroy_ := none }
  | .databaseRebootWorker => { api with databaseRebootWorker_ := none }
  | .databaseForceRecoveryWithDataLoss => { api with databaseForceRecoveryWithDataLoss_ := none }
  | .databaseCreateSnapshot => { api with databaseCreateSnapshot_ := none }
  | .databaseGetMainThreadBusyness => { api with databaseGetMainThreadBusyness_ := none }
  | .databaseGetServerProtocol => { api with databaseGetServerProtocol_ := none }
  | .transactionSetOption => { api with transactionSetOption_ := none }
  | .transactionDestroy => { api with transactionDestroy_ := none }
  | .transactionSetReadVersion => { api with transactionSetReadVersion_ := none }
  | .transactionGetReadVersion => { api with transactionGetReadVersion_ := none }
  | .transactionGet => { api with transactionGet_ := none }
  | .transactionGetKey => { api with transactionGetKey_ := none }
  | .transactionGetAddressesForKey => { api with transactionGetAddressesForKey_ := none }
  | .transactionGetRange => { api with transactionGetRange_ := none }
  | .transactionGetVersionstamp => { api with transactionGetVersionstamp_ := none }
  | .transactionSet => { api with transactionSet_ := none }
  | .transactionClear => { api with transactionClear_ := none }
  | .transactionClearRange => { api with transactionClearRange_ := none }
  | .transactionAtomicOp => { api with transactionAtomicOp_ := none }
  | .transactionGetEstimatedRangeSizeBytes => { api with transactionGetEstimatedRangeSizeBytes_ := none }
  | .transactionGetRangeSplitPoints => { api with transactionGetRangeSplitPoints_ := none }
  | .transactionCommit => { api with transactionCommit_ := none }
  | .transactionGetCommittedVersion => { api with transactionGetCommittedVersion_ := none }
  | .transactionGetApproximateSize => { api with transactionGetApproximateSize_ := none }
  | .transactionWatch => { api with transactionWatch_ := none }
  | .transactionOnError => { api with transactionOnError_ := none }
  | .transactionReset => { api with transactionReset_ := none }
  | .transactionCancel => { api with transactionCancel_ := none }
  | .transactionAddConflictRange => { api with transactionAddConflictRange_ := none }
  | .futureGetDatabase => { api with futureGetDatabase_ := none }
  | .futureGetInt64 => { api with futureGetInt64_ := none }
  | .futureGetUInt64 => { api with futureGetUInt64_ := none }
  | .futureGetBool => { api with futureGetBool_ := none }
  | .futureGetError => { api with futureGetError_ := none }
  | .futureGetKey => { api with futureGetKey_ := none }
  | .futureGetValue => { api with futureGetValue_ := none }
  | .futureGetStringArray => { api with futureGetStringArray_ := none }
  | .futureGetKeyArray => { api with futureGetKeyArray_ := none }
  | .futureGetKeyValueArray => { api with futureGetKeyValueArray_ := none }
  | .futureSetCallback => { api with futureSetCallback_ := none }
  | .futureCancel => { api with futureCancel_ := none }
  | .futureDestroy => { api with futureDestroy_ := none }
  | .createCluster => { api with createCluster_ := none }
  | .clusterCreateDatabase => { api with clusterCreateDatabase_ := none }
  | .clusterDestroy => { api with clusterDestroy_ := none }
  | .futureGetCluster => { api with futureGetCluster_ := none }

/-- Whether the pointer of entry `e` is bound. -/
def isBound (e : Entry) (api : FdbCApi σ) : Bool :=
  match e with
  | .selectApiVersion => api.selectApiVersion_.isSome
  | .getClientVersion => api.getClientVersion_.isSome
  | .setNetworkOption => api.setNetworkOption_.isSome
  | .setupNetwork => api.setupNetwork_.isSome
  | .runNetwork => api.runNetwork_.isSome
  | .stopNetwork => api.stopNetwork_.isSome
  | .createDatabase => api.createDatabase_.isSome
  | .databaseCreateTransaction => api.databaseCreateTransaction_.isSome
  | .databaseSetOption => api.databaseSetOption_.isSome
  | .databaseDestroy => api.databaseDestroy_.isSome
  | .databaseRebootWorker => api.databaseRebootWorker_.isSome
  | .databaseForceRecoveryWithDataLoss => api.databaseForceRecoveryWithDataLoss_.isSome
  | .databaseCreateSnapshot => api.databaseCreateSnapshot_.isSome
  | .databaseGetMainThreadBusyness => api.databaseGetMainThreadBusyness_.isSome
  | .databaseGetServerProtocol => api.databaseGetServerProtocol_.isSome
  | .transactionSetOption => api.transactionSetOption_.isSome
  | .transactionDestroy => api.transactionDestroy_.isSome
  | .transactionSetReadVersion => api.transactionSetReadVersion_.isSome
  | .transactionGetReadVersion => api.transactionGetReadVersion_.isSome
  | .transactionGet => api.transactionGet_.isSome
  | .transactionGetKey => api.transactionGetKey_.isSome
  | .transactionGetAddressesForKey => api.transactionGetAddressesForKey_.isSome
  | .transactionGetRange => api.transactionGetRange_.isSome
  | .transactionGetVersionstamp => api.transactionGetVersionstamp_.isSome
  | .transactionSet => api.transactionSet_.isSome
  | .transactionClear => api.transactionClear_.isSome
  | .transactionClearRange => api.transactionClearRange_.isSome
  | .transactionAtomicOp => api.transactionAtomicOp_.isSome
  | .transactionGetEstimatedRangeSizeBytes => api.transactionGetEstimatedRangeSizeBytes_.isSome
  | .transactionGetRangeSplitPoints => api.transactionGetRangeSplitPoints_.isSome
  | .transactionCommit => api.transactionCommit_.isSome
  | .transactionGetCommittedVersion => api.transactionGetCommittedVersion_.isSome
  | .transactionGetApproximateSize => api.transactionGetApproximateSize_.isSome
  | .transactionWatch => api.transactionWatch_.isSome
  | .transactionOnError => api.transactionOnError_.isSome
  | .transactionReset => api.transactionReset_.isSome
  | .transactionCancel => api.transactionCancel_.isSome
  | .transactionAddConflictRange => api.transactionAddConflictRange_.isSome
  | .futureGetDatabase => api.futureGetDatabase_.isSome
  | .futureGetInt64 => api.futureGetInt64_.isSome
  | .futureGetUInt64 => api.futureGetUInt64_.isSome
  | .futureGetBool => api.futureGetBool_.isSome
  | .futureGetError => api.futureGetError_.isSome
  | .futureGetKey => api.futureGetKey_.isSome
  | .futureGetValue => api.futureGetValue_.isSome
  | .futureGetStringArray => api.futureGetStringArray_.isSome
  | .futureGetKeyArray => api.futureGetKeyArray_.isSome
  | .futureGetKeyValueArray => api.futureGetKeyValueArray_.isSome
  | .futureSetCallback => api.futureSetCallback_.isSome
  | .futureCancel => api.futureCancel_.isSome
  | .futureDestroy => api.futureDestroy_.isSome
  | .createCluster => api.createCluster_.isSome
  | .clusterCreateDatabase => api.clusterCreateDatabase_.isSome
  | .clusterDestroy => api.clusterDestroy_.isSome
  | .futureGetCluster => api.futureGetCluster_.isSome

/-- Arguments for an arbitrary wrapper: the i-th pointer, integer, unsigned and string argument. -/
structure Args where
  ptr : Nat → Ptr
  int : Nat → Int
  nat : Nat → Nat
  str : Nat → String

/-- Call the public wrapper of entry `e`, taking its arguments from `a` in declaration order. -/
def runWrapper (e : Entry) (a : Args) (api : FdbCApi σ) : M σ Unit :=
  match e with
  | .selectApiVersion => M.discard (api.selectApiVersion (a.int 0) (a.int 1))
  | .getClientVersion => M.discard (api.getClientVersion)
  | .setNetworkOption => M.discard (api.setNetworkOption (a.int 0) (a.ptr 0) (a.int 1))
  | .setupNetwork => M.discard (api.setupNetwork)
  | .runNetwork => M.discard (api.runNetwork)
  | .stopNetwork => M.discard (api.stopNetwork)
  | .createDatabase => M.discard (api.createDatabase (a.str 0) (a.ptr 0))
  | .databaseCreateTransaction => M.discard (api.databaseCreateTransaction (a.ptr 0) (a.ptr 1))
  | .databaseSetOption => M.discard (api.databaseSetOption (a.ptr 0) (a.int 0) (a.ptr 1) (a.int 1))
  | .databaseDestroy => M.discard (api.databaseDestroy (a.ptr 0))
  | .databaseRebootWorker => M.discard (api.databaseRebootWorker (a.ptr 0) (a.ptr 1) (a.int 0)
      (a.int 1) (a.int 2))
  | .databaseForceRecoveryWithDataLoss => M.discard (api.databaseForceRecoveryWithDataLoss (a.ptr 0)
      (a.ptr 1) (a.int 0))
  | .databaseCreateSnapshot => M.discard (api.databaseCreateSnapshot (a.ptr 0) (a.ptr 1) (a.int 0)
      (a.ptr 2) (a.int 1))
  | .databaseGetMainThreadBusyness => M.discard (api.databaseGetMainThreadBusyness (a.ptr 0))
  | .databaseGetServerProtocol => M.discard (api.databaseGetServerProtocol (a.ptr 0) (a.nat 0))
  | .transactionSetOption => M.discard (api.transactionSetOption (a.ptr 0) (a.int 0) (a.ptr 1)
      (a.int 1))
  | .transactionDestroy => M.discard (api.transactionDestroy (a.ptr 0))
  | .transactionSetReadVersion => M.discard (api.transactionSetReadVersion (a.ptr 0) (a.int 0))
  | .transactionGetReadVersion => M.discard (api.transactionGetReadVersion (a.ptr 0))
  | .transactionGet => M.discard (api.transactionGet (a.ptr 0) (a.ptr 1) (a.int 0) (a.int 1))
  | .transactionGetKey => M.discard (api.transactionGetKey (a.ptr 0) (a.ptr 1) (a.int 0) (a.int 1)
      (a.int 2) (a.int 3))
  | .transactionGetAddressesForKey => M.discard (api.transactionGetAddressesForKey (a.ptr 0) (a.ptr
      1) (a.int 0))
  | .transactionGetRange => M.discard (api.transactionGetRange (a.ptr 0) (a.ptr 1) (a.int 0) (a.int
      1) (a.int 2) (a.ptr 2) (a.int 3) (a.int 4) (a.int 5) (a.int 6) (a.int 7) (a.int 8) (a.int 9)
      (a.int 10) (a.int 11))
  | .transactionGetVersionstamp => M.discard (api.transactionGetVersionstamp (a.ptr 0))
  | .transactionSet => M.discard (api.transactionSet (a.ptr 0) (a.ptr 1) (a.int 0) (a.ptr 2) (a.int
      1))
  | .transactionClear => M.discard (api.transactionClear (a.ptr 0) (a.ptr 1) (a.int 0))
  | .transactionClearRange => M.discard (api.transactionClearRange (a.ptr 0) (a.ptr 1) (a.int 0)
      (a.ptr 2) (a.int 1))
  | .transactionAtomicOp => M.discard (api.transactionAtomicOp (a.ptr 0) (a.ptr 1) (a.int 0) (a.ptr
      2) (a.int 1) (a.int 2))
  | .transactionGetEstimatedRangeSizeBytes => M.discard (api.transactionGetEstimatedRangeSizeBytes
      (a.ptr 0) (a.ptr 1) (a.int 0) (a.ptr 2) (a.int 1))
  | .transactionGetRangeSplitPoints => M.discard (api.transactionGetRangeSplitPoints (a.ptr 0)
      (a.ptr 1) (a.int 0) (a.ptr 2) (a.int 1) (a.int 2))
  | .transactionCommit => M.discard (api.transactionCommit (a.ptr 0))
  | .transactionGetCommittedVersion => M.discard (api.transactionGetCommittedVersion (a.ptr 0)
      (a.ptr 1))
  | .transactionGetApproximateSize => M.discard (api.transactionGetApproximateSize (a.ptr 0))
  | .transactionWatch => M.discard (api.transactionWatch (a.ptr 0) (a.ptr 1) (a.int 0))
  | .transactionOnError => M.discard (api.transactionOnError (a.ptr 0) (a.int 0))
  | .transactionReset => M.discard (api.transactionReset (a.ptr 0))
  | .transactionCancel => M.discard (api.transactionCancel (a.ptr 0))
  | .transactionAddConflictRange => M.discard (api.transactionAddConflictRange (a.ptr 0) (a.ptr 1)
      (a.int 0) (a.ptr 2) (a.int 1) (a.int 2))
  | .futureGetDatabase => M.discard (api.futureGetDatabase (a.ptr 0) (a.ptr 1))
  | .futureGetInt64 => M.discard (api.futureGetInt64 (a.ptr 0) (a.ptr 1))
  | .futureGetUInt64 => M.discard (api.futureGetUInt64 (a.ptr 0) (a.ptr 1))
  | .futureGetBool => M.discard (api.futureGetBool (a.ptr 0) (a.ptr 1))
  | .futureGetError => M.discard (api.futureGetError (a.ptr 0))
  | .futureGetKey => M.discard (api.futureGetKey (a.ptr 0) (a.ptr 1) (a.ptr 2))
  | .futureGetValue => M.discard (api.futureGetValue (a.ptr 0) (a.ptr 1) (a.ptr 2) (a.ptr 3))
  | .futureGetStringArray => M.discard (api.futureGetStringArray (a.ptr 0) (a.ptr 1) (a.ptr 2))
  | .futureGetKeyArray => M.discard (api.futureGetKeyArray (a.ptr 0) (a.ptr 1) (a.ptr 2))
  | .futureGetKeyValueArray => M.discard (api.futureGetKeyValueArray (a.ptr 0) (a.ptr 1) (a.ptr 2)
      (a.ptr 3))
  | .futureSetCallback => M.discard (api.futureSetCallback (a.ptr 0) (a.ptr 1) (a.ptr 2))
  | .futureCancel => M.discard (api.futureCancel (a.ptr 0))
  | .futureDestroy => M.discard (api.futureDestroy (a.ptr 0))
  | .createCluster => M.discard (api.createCluster (a.str 0))
  | .clusterCreateDatabase => M.discard (api.clusterCreateDatabase (a.ptr 0) (a.ptr 1) (a.int 0))
  | .clusterDestroy => M.discard (api.clusterDestroy (a.ptr 0))
  | .futureGetCluster => M.discard (api.futureGetCluster (a.ptr 0) (a.ptr 1))

/-- The call the library receives when the wrapper of `e` is run on the arguments `a`. -/
def callOf (e : Entry) (a : Args) : Call :=
  match e with
  | .selectApiVersion => Call.selectApiVersion (a.int 0) (a.int 1)
  | .getClientVersion => Call.getClientVersion
  | .setNetworkOption => Call.setNetworkOption (a.int 0) (a.ptr 0) (a.int 1)
  | .setupNetwork => Call.setupNetwork
  | .runNetwork => Call.runNetwork
  | .stopNetwork => Call.stopNetwork
  | .createDatabase => Call.createDatabase (a.str 0) (a.ptr 0)
  | .databaseCreateTransaction => Call.databaseCreateTransaction (a.ptr 0) (a.ptr 1)
  | .databaseSetOption => Call.databaseSetOption (a.ptr 0) (a.int 0) (a.ptr 1) (a.int 1)
  | .databaseDestroy => Call.databaseDestroy (a.ptr 0)
  | .databaseRebootWorker => Call.databaseRebootWorker (a.ptr 0) (a.ptr 1) (a.int 0) (a.int 1)
      (a.int 2)
  | .databaseForceRecoveryWithDataLoss => Call.databaseForceRecoveryWithDataLoss (a.ptr 0) (a.ptr 1)
      (a.int 0)
  | .databaseCreateSnapshot => Call.databaseCreateSnapshot (a.ptr 0) (a.ptr 1) (a.int 0) (a.ptr 2)
      (a.int 1)
  | .databaseGetMainThreadBusyness => Call.databaseGetMainThreadBusyness (a.ptr 0)
  | .databaseGetServerProtocol => Call.databaseGetServerProtocol (a.ptr 0) (a.nat 0)
  | .transactionSetOption => Call.transactionSetOption (a.ptr 0) (a.int 0) (a.ptr 1) (a.int 1)
  | .transactionDestroy => Call.transactionDestroy (a.ptr 0)
  | .transactionSetReadVersion => Call.transactionSetReadVersion (a.ptr 0) (a.int 0)
  | .transactionGetReadVersion => Call.transactionGetReadVersion (a.ptr 0)
  | .transactionGet => Call.transactionGet (a.ptr 0) (a.ptr 1) (a.int 0) (a.int 1)
  | .transactionGetKey => Call.transactionGetKey (a.ptr 0) (a.ptr 1) (a.int 0) (a.int 1) (a.int 2)
      (a.int 3)
  | .transactionGetAddressesForKey => Call.transactionGetAddressesForKey (a.ptr 0) (a.ptr 1) (a.int
      0)
  | .transactionGetRange => Call.transactionGetRange (a.ptr 0) (a.ptr 1) (a.int 0) (a.int 1) (a.int
      2) (a.ptr 2) (a.int 3) (a.int 4) (a.int 5) (a.int 6) (a.int 7) (a.int 8) (a.int 9) (a.int 10)
      (a.int 11)
  | .transactionGetVersionstamp => Call.transactionGetVersionstamp (a.ptr 0)
  | .transactionSet => Call.transactionSet (a.ptr 0) (a.ptr 1) (a.int 0) (a.ptr 2) (a.int 1)
  | .transactionClear => Call.transactionClear (a.ptr 0) (a.ptr 1) (a.int 0)
  | .transactionClearRange => Call.transactionClearRange (a.ptr 0) (a.ptr 1) (a.int 0) (a.ptr 2)
      (a.int 1)
  | .transactionAtomicOp => Call.transactionAtomicOp (a.ptr 0) (a.ptr 1) (a.int 0) (a.ptr 2) (a.int
      1) (a.int 2)
  | .transactionGetEstimatedRangeSizeBytes => Call.transactionGetEstimatedRangeSizeBytes (a.ptr 0)
      (a.ptr 1) (a.int 0) (a.ptr 2) (a.int 1)
  | .transactionGetRangeSplitPoints => Call.transactionGetRangeSplitPoints (a.ptr 0) (a.ptr 1)
      (a.int 0) (a.ptr 2) (a.int 1) (a.int 2)
  | .transactionCommit => Call.transactionCommit (a.ptr 0)
  | .transactionGetCommittedVersion => Call.transactionGetCommittedVersion (a.ptr 0) (a.ptr 1)
  | .transactionGetApproximateSize => Call.transactionGetApproximateSize (a.ptr 0)
  | .transactionWatch => Call.transactionWatch (a.ptr 0) (a.ptr 1) (a.int 0)
  | .transactionOnError => Call.transactionOnError (a.ptr 0) (a.int 0)
  | .transactionReset => Call.transactionReset (a.ptr 0)
  | .transactionCancel => Call.transactionCancel (a.ptr 0)
  | .transactionAddConflictRange => Call.transactionAddConflictRange (a.ptr 0) (a.ptr 1) (a.int 0)
      (a.ptr 2) (a.int 1) (a.int 2)
  | .futureGetDatabase => Call.futureGetDatabase (a.ptr 0) (a.ptr 1)
  | .futureGetInt64 => Call.futureGetInt64 (a.ptr 0) (a.ptr 1)
  | .futureGetUInt64 => Call.futureGetUInt64 (a.ptr 0) (a.ptr 1)
  | .futureGetBool => Call.futureGetBool (a.ptr 0) (a.ptr 1)
  | .futureGetError => Call.futureGetError (a.ptr 0)
  | .futureGetKey => Call.futureGetKey (a.ptr 0) (a.ptr 1) (a.ptr 2)
  | .futureGetValue => Call.futureGetValue (a.ptr 0) (a.ptr 1) (a.ptr 2) (a.ptr 3)
  | .futureGetStringArray => Call.futureGetStringArray (a.ptr 0) (a.ptr 1) (a.ptr 2)
  | .futureGetKeyArray => Call.futureGetKeyArray (a.ptr 0) (a.ptr 1) (a.ptr 2)
  | .futureGetKeyValueArray => Call.futureGetKeyValueArray (a.ptr 0) (a.ptr 1) (a.ptr 2) (a.ptr 3)
  | .futureSetCallback => Call.futureSetCallback (a.ptr 0) (a.ptr 1) (a.ptr 2)
  | .futureCancel => Call.futureCancel (a.ptr 0)
  | .futureDestroy => Call.futureDestroy (a.ptr 0)
  | .createCluster => Call.createCluster (a.str 0)
  | .clusterCreateDatabase => Call.clusterCreateDatabase (a.ptr 0) (a.ptr 1) (a.int 0)
  | .clusterDestroy => Call.clusterDestroy (a.ptr 0)
  | .futureGetCluster => Call.futureGetCluster (a.ptr 0) (a.ptr 1)

/-- A concrete loaded library: the state counts the calls made, every entry point is bound,
futures are numbered from 1000. -/
def stubLib : FdbCApi Nat where
  selectApiVersion_ := some (fun _ _ n => (0, n + 1))
  getClientVersion_ := some (fun n => ("7.0.0", n + 1))
  setNetworkOption_ := some (fun _ _ _ n => (0, n + 1))
  setupNetwork_ := some (fun n => (0, n + 1))
  runNetwork_ := some (fun n => (0, n + 1))
  stopNetwork_ := some (fun n => (0, n + 1))
  createDatabase_ := some (fun _ _ n => (0, n + 1))
  databaseCreateTransaction_ := some (fun _ _ n => (0, n + 1))
  databaseSetOption_ := some (fun _ _ _ _ n => (0, n + 1))
  databaseDestroy_ := some (fun _ n => ((), n + 1))
  databaseRebootWorker_ := some (fun _ _ _ _ _ n => (1000 + n, n + 1))
  databaseForceRecoveryWithDataLoss_ := some (fun _ _ _ n => (1000 + n, n + 1))
  databaseCreateSnapshot_ := some (fun _ _ _ _ _ n => (1000 + n, n + 1))
  databaseGetMainThreadBusyness_ := some (fun _ n => (1, n + 1))
  databaseGetServerProtocol_ := some (fun _ _ n => (1000 + n, n + 1))
  transactionSetOption_ := some (fun _ _ _ _ n => (0, n + 1))
  transactionDestroy_ := some (fun _ n => ((), n + 1))
  transactionSetReadVersion_ := some (fun _ _ n => ((), n + 1))
  transactionGetReadVersion_ := some (fun _ n => (1000 + n, n + 1))
  transactionGet_ := some (fun _ _ _ _ n => (1000 + n, n + 1))
  transactionGetKey_ := some (fun _ _ _ _ _ _ n => (1000 + n, n + 1))
  transactionGetAddressesForKey_ := some (fun _ _ _ n => (1000 + n, n + 1))
  transactionGetRange_ := some (fun _ _ _ _ _ _ _ _ _ _ _ _ _ _ _ n => (1000 + n, n + 1))
  transactionGetVersionstamp_ := some (fun _ n => (1000 + n, n + 1))
  transactionSet_ := some (fun _ _ _ _ _ n => ((), n + 1))
  transactionClear_ := some (fun _ _ _ n => ((), n + 1))
  transactionClearRange_ := some (fun _ _ _ _ _ n => ((), n + 1))
  transactionAtomicOp_ := some (fun _ _ _ _ _ _ n => ((), n + 1))
  transactionGetEstimatedRangeSizeBytes_ := some (fun _ _ _ _ _ n => (1000 + n, n + 1))
  transactionGetRangeSplitPoints_ := some (fun _ _ _ _ _ _ n => (1000 + n, n + 1))
  transactionCommit_ := some (fun _ n => (1000 + n, n + 1))
  transactionGetCommittedVersion_ := some (fun _ _ n => (0, n + 1))
  transactionGetApproximateSize_ := some (fun _ n => (1000 + n, n + 1))
  transactionWatch_ := some (fun _ _ _ n => (1000 + n, n + 1))
  transactionOnError_ := some (fun _ _ n => (1000 + n, n + 1))
  transactionReset_ := some (fun _ n => ((), n + 1))
  transactionCancel_ := some (fun _ n => ((), n + 1))
  transactionAddConflictRange_ := some (fun _ _ _ _ _ _ n => (0, n + 1))
  futureGetDatabase_ := some (fun _ _ n => (0, n + 1))
  futureGetInt64_ := some (fun _ _ n => (0, n + 1))
  futureGetUInt64_ := some (fun _ _ n => (0, n + 1))
  futureGetBool_ := some (fun _ _ n => (0, n + 1))
  futureGetError_ := some (fun _ n => (0, n + 1))
  futureGetKey_ := some (fun _ _ _ n => (0, n + 1))
  futureGetValue_ := some (fun _ _ _ _ n => (0, n + 1))
  futureGetStringArray_ := some (fun _ _ _ n => (0, n + 1))
  futureGetKeyArray_ := some (fun _ _ _ n => (0, n + 1))
  futureGetKeyValueArray_ := some (fun _ _ _ _ n => (0, n + 1))
  futureSetCallback_ := some (fun _ _ _ n => (0, n + 1))
  futureCancel_ := some (fun _ n => ((), n + 1))
  futureDestroy_ := some (fun _ n => ((), n + 1))
  createCluster_ := some (fun _ n => (1000 + n, n + 1))
  clusterCreateDatabase_ := some (fun _ _ _ n => (1000 + n, n + 1))
  clusterDestroy_ := some (fun _ n => ((), n + 1))
  futureGetCluster_ := some (fun _ _ n => (0, n + 1))

/-- Concrete arguments: pointer `i` is the address `4096 + i`, integer `i` is `i + 1`. -/
def stubArgs : Args where
  ptr := fun i => 4096 + i
  int := fun i => (i : Int) + 1
  nat := fun i => 7 + i
  str := fun _ => "fdb.cluster"

/-- A wrapper forwards to a library function: run on any table it returns what `entry` returns
and leaves the library in the state `entry` leaves it in; run on the recording table the log
grows by exactly the one call `c`. -/
def Forwards {α : Type} (plain : M σ α) (recorded : M (σ × List Call) α) (entry : Lib σ α)
    (c : Call) : Prop :=
  (∀ s, plain s = (Outcome.ok (entry s).1, (entry s).2)) ∧
  ∀ s log, recorded (s, log) = (Outcome.ok (entry s).1, ((entry s).2, log ++ [c]))

/-- The wrapper of `e` guards its pointer: run with that pointer null, it does not end in a
call through the null pointer. -/
def guardsPointer (e : Entry) (a : Args) (api : FdbCApi σ) (s : σ) : Bool :=
  !(runWrapper e a (unbind e api) s).1.isNullCall

/-- The entry points the specification lists as optional. -/
def specOptionalEntries : List Entry :=
  [.transactionGetVersionstamp, .transactionGetEstimatedRangeSizeBytes,
   .transactionGetRangeSplitPoints, .transactionGetApproximateSize, .databaseRebootWorker,
   .databaseForceRecoveryWithDataLoss, .databaseCreateSnapshot, .databaseGetMainThreadBusyness,
   .databaseGetServerProtocol]

/-- The entry points whose wrapper tests the pointer before using it. -/
def guardedEntries : List Entry :=
  .getClientVersion :: specOptionalEntries

/-! ## The adapters `DLTransaction` and `DLDatabase` -/

/-- Modelled from the spec: `ThreadFuture<T>` of `flow/ThreadHelper.actor.h`, which this header
only includes.  An asynchronous value: not yet set, set to a value, or set to an error code. -/
inductive ThreadFuture (α : Type) where
  | pending
  | value (a : α)
  | error (code : Int)

/-- Data members of `class DLTransaction`: `const Reference<FdbCApi> api` and
`FdbCApi::FDBTransaction* const tr`. -/
structure DLTransaction (σ : Type) where
  api : FdbCApi σ
  tr : Ptr

/-- The constructor `DLTransaction(Reference<FdbCApi> api, FdbCApi::FDBTransaction* tr)`. -/
def DLTransaction.construct (api : FdbCApi σ) (tr : Ptr) : DLTransaction σ :=
  { api := api, tr := tr }

/-- The destructor `~DLTransaction()`. -/
def DLTransaction.destruct (t : DLTransaction σ) : M σ Unit :=
  t.api.transactionDestroy t.tr

/-- Data members of `class DLDatabase`. -/
structure DLDatabase (σ : Type) where
  api : FdbCApi σ
  db : Ptr
  ready : ThreadFuture Unit

/-- The constructor `DLDatabase(Reference<FdbCApi> api, FdbCApi::FDBDatabase* db)`. -/
def DLDatabase.construct (api : FdbCApi σ) (db : Ptr) : DLDatabase σ :=
  { api := api, db := db, ready := ThreadFuture.value () }

/-- The destructor `~DLDatabase()`. -/
def DLDatabase.destruct (d : DLDatabase σ) : M σ Unit :=
  if d.db ≠ 0 then d.api.databaseDestroy d.db
  else M.ret ()

/-! ## `ClientDesc` and `ClientInfo` -/

/-- Modelled from the spec: `ProtocolVersion` of `flow/ProtocolVersion.h`, which this header
does not contain.  A 64-bit version tag. -/
structure ProtocolVersion where
  version : Nat
  deriving DecidableEq, Repr

/-- The struct `ClientDesc`; both members are `const`. -/
structure ClientDesc where
  libPath : String
  external : Bool
  deriving DecidableEq, Repr

/-- The struct `ClientInfo : ClientDesc`.  `api` is the `IClientApi*`, a hook is a pair of a
function pointer and its parameter. -/
structure ClientInfo extends ClientDesc where
  protocolVersion : ProtocolVersion
  api : Ptr
  failed : Bool
  threadCompletionHooks : List (Ptr × Ptr)
  deriving DecidableEq, Repr

/-- The constructor `ClientInfo()`. -/
def ClientInfo.empty : ClientInfo :=
  { libPath := "", external := false, protocolVersion := ⟨0⟩, api := 0, failed := true,
    threadCompletionHooks := [] }

/-- The constructor `ClientInfo(IClientApi* api)`. -/
def ClientInfo.ofApi (api : Ptr) : ClientInfo :=
  { libPath := "internal", external := false, protocolVersion := ⟨0⟩, api := api,
    failed := false, threadCompletionHooks := [] }

/-- The constructor `ClientInfo(IClientApi* api, std::string libPath)`. -/
def ClientInfo.ofApiLibPath (api : Ptr) (libPath : String) : ClientInfo :=
  { libPath := libPath, external := true, protocolVersion := ⟨0⟩, api := api, failed := false,
    threadCompletionHooks := [] }

/-- An assignment to a data member of `ClientInfo` that is not `const`. -/
inductive ClientInfo.Assign where
  | protocolVersion (v : ProtocolVersion)
  | api (p : Ptr)
  | failed (b : Bool)
  | threadCompletionHooks (hooks : List (Ptr × Ptr))

/-- Carry out one assignment. -/
def ClientInfo.assign (c : ClientInfo) : ClientInfo.Assign → ClientInfo
  | .protocolVersion v => { c with protocolVersion := v }
  | .api p => { c with api := p }
  | .failed b => { c with failed := b }
  | .threadCompletionHooks hooks => { c with threadCompletionHooks := hooks }

/-- The ways to construct a `ClientInfo`: the three constructors with their arguments. -/
inductive ClientInfo.Ctor where
  | default
  | withApi (api : Ptr)
  | withApiLibPath (api : Ptr) (libPath : String)

/-- The object a constructor call builds. -/
def ClientInfo.Ctor.build : ClientInfo.Ctor → ClientInfo
  | .default => ClientInfo.empty
  | .withApi api => ClientInfo.ofApi api
  | .withApiLibPath api libPath => ClientInfo.ofApiLibPath api libPath

/-- Whether the constructor takes an `IClientApi*`. -/
def ClientInfo.Ctor.takesApi : ClientInfo.Ctor → Bool
  | .default => false
  | .withApi _ => true
  | .withApiLibPath _ _ => true

/-- Modelled from the spec: `ClientInfo::canReplace`, which the header declares and a file
outside it defines.  Section 4.E: it returns true iff the normalized protocol versions of
`self` and `other` are equal, `self` is not failed and `self` is preferred.  The normalization
of `ProtocolVersion` (`flow/ProtocolVersion.h`) and the preference between two clients are not
pinned down by the header and are parameters. -/
def ClientInfo.canReplace (normalized : ProtocolVersion → ProtocolVersion)
    (preferred : ClientInfo → ClientInfo → Bool) (self other : ClientInfo) : Bool :=
  decide (normalized self.protocolVersion = normalized other.protocolVersion) &&
    !self.failed && preferred self other

/-- A normalization for concrete examples: clear the low sixteen bits of the version. -/
def maskLowBits (v : ProtocolVersion) : ProtocolVersion :=
  ⟨v.version - v.version % 65536⟩

/-- A preference for concrete examples, the one section 4.E names: a client that is not
external is preferred over an external one; otherwise the client already there stays. -/
def preferNonExternal (self other : ClientInfo) : Bool :=
  !self.external && other.external

/-! ## The client registry of `DatabaseState` -/

/-- The member `std::map<ProtocolVersion, Reference<ClientInfo>> clients`: key-value pairs. -/
abbrev ClientMap := List (ProtocolVersion × ClientInfo)

/-- The lookup `clients.find(key)`. -/
def ClientMap.find : ClientMap → ProtocolVersion → Option ClientInfo
  | [], _ => none
  | (k, c) :: rest, key => if k = key then some c else ClientMap.find rest key

/-- The assignment `clients[key] = client`: overwrite the entry of `key`, or add one. -/
def ClientMap.assign : ClientMap → ProtocolVersion → ClientInfo → ClientMap
  | [], key, client => [(key, client)]
  | (k, c) :: rest, key, client =>
    if k = key then (k, client) :: rest else (k, c) :: ClientMap.assign rest key client

/-- Modelled from the spec: `DatabaseState::addClient`, which the header declares and a file
outside it defines.  The registry holds `clients[normalized_version] → ClientInfo`, at most one
client per normalized version, and uses `can_replace` to reject duplicate or inferior clients:
a client whose normalized version has no entry is stored under it; otherwise it takes the
place of the stored client exactly when it can replace it. -/
def addClient (normalized : ProtocolVersion → ProtocolVersion)
    (preferred : ClientInfo → ClientInfo → Bool) (clients : ClientMap) (client : ClientInfo) :
    ClientMap :=
  match clients.find (normalized client.protocolVersion) with
  | none => clients.assign (normalized client.protocolVersion) client
  | some existing =>
    if client.canReplace normalized preferred existing then
      clients.assign (normalized client.protocolVersion) client
    else clients

/-- Concrete clients for examples: the local client and external ones, with their versions. -/
def localClient70 : ClientInfo :=
  { ClientInfo.ofApi 1 with protocolVersion := ⟨0x0FDB00B070010001⟩ }

/-- An external client whose version differs from that of `localClient70` in the low bits. -/
def externalClient70 : ClientInfo :=
  { ClientInfo.ofApiLibPath 2 "/lib/fdb_c_70.so" with protocolVersion := ⟨0x0FDB00B070010000⟩ }

/-- An external client of an older version. -/
def externalClient63 : ClientInfo :=
  { ClientInfo.ofApiLibPath 3 "/lib/fdb_c_63.so" with protocolVersion := ⟨0x0FDB00B063010000⟩ }

/-! ## `MultiVersionTransaction`: sticky options -/

/-- An argument of `concatToString`: a value that `operator<<` can write to a stream. -/
inductive Arg where
  | str (s : String)
  | chr (c : Char)
  | int (n : Int)
  | uint (n : Nat)
  | bool (b : Bool)

/-- The characters `ss << arg` writes on a stream with default formatting: a string and a
character as they are, an integer in decimal, a `bool` as `1` or `0`. -/
def Arg.render : Arg → String
  | .str s => s
  | .chr c => c.toString
  | .int n => toString n
  | .uint n => toString n
  | .bool b => if b then "1" else "0"

/-- The two overloads of `_concatHelper`, on the contents of the stream `ss`: the overload for
one argument writes it and returns the stream; the overload for more writes the first and
goes on with the rest. -/
def _concatHelper (ss : String) : Arg → List Arg → String
  | arg, [] => ss ++ arg.render
  | first, next :: args => _concatHelper (ss ++ first.render) next args

/-- The function `concatToString(args...)`: `_concatHelper(std::stringstream(), args...).str()`.
The argument list is `first, args...`; without an argument no overload of `_concatHelper`
applies and the call does not compile. -/
def concatToString (first : Arg) (args : List Arg) : String :=
  _concatHelper "" first args

/-- The specification of concatenation: the rendering of the first value followed by the
renderings of the following ones, nothing else. -/
def renderAll : List Arg → String
  | [] => ""
  | a :: rest => a.render ++ renderAll rest

/-! ## Basic facts about calls through pointers -/

theorem callPtr_none {α F : Type} (app : F → Lib σ α) (s : σ) :
    callPtr (none : Option F) app s = (Outcome.nullCall, s) := rfl

theorem callPtr_some {α F : Type} (fp : F) (app : F → Lib σ α) (s : σ) :
    callPtr (some fp) app s = (Outcome.ok (app fp s).1, (app fp s).2) := rfl

theorem instrument_none {F G : Type} (g : F → G) : instrument (none : Option F) g = none := rfl

theorem instrument_some {F G : Type} (fp : F) (g : F → G) :
    instrument (some fp) g = some (g fp) := rfl

theorem logged_apply {α : Type} (c : Call) (fn : Lib σ α) (s : σ) (log : List Call) :
    logged c fn (s, log) = ((fn s).1, ((fn s).2, log ++ [c])) := rfl


/-! ## Optional entry points -/

/-- Claim C1.  Each of the four optional transaction wrappers (`transactionGetVersionstamp`,
`transactionGetEstimatedRangeSizeBytes`, `transactionGetRangeSplitPoints`,
`transactionGetApproximateSize`), for every table, library state and arguments: it throws
`unsupported_operation` exactly when its pointer is null; when it throws, the library state
and the log of calls received by the library are unchanged (no entry point ran, no future was
created); when the pointer is bound it returns the future the bound function returns on the
same arguments and leaves the library in the state that function leaves it in. -/
theorem optional_transaction_entries (api : FdbCApi σ) (s : σ) (log : List Call)
    (tr begin_key_name end_key_name : Ptr) (begin_key_name_length end_key_name_length : Int)
    (chunkSize : Int) :
    -- transactionGetVersionstamp
    (((api.transactionGetVersionstamp tr s).1 = Outcome.thrown Error.unsupported_operation ↔
        api.transactionGetVersionstamp_ = none) ∧
      (((record api).transactionGetVersionstamp tr (s, log)).1
          = Outcome.thrown Error.unsupported_operation →
        ((record api).transactionGetVersionstamp tr (s, log)).2 = (s, log)) ∧
      (∀ fp, api.transactionGetVersionstamp_ = some fp →
        api.transactionGetVersionstamp tr s = (Outcome.ok (fp tr s).1, (fp tr s).2))) ∧
    -- transactionGetEstimatedRangeSizeBytes
    (((api.transactionGetEstimatedRangeSizeBytes tr begin_key_name begin_key_name_length
          end_key_name end_key_name_length s).1 = Outcome.thrown Error.unsupported_operation ↔
        api.transactionGetEstimatedRangeSizeBytes_ = none) ∧
      (((record api).transactionGetEstimatedRangeSizeBytes tr begin_key_name
          begin_key_name_length end_key_name end_key_name_length (s, log)).1
          = Outcome.thrown Error.unsupported_operation →
        ((record api).transactionGetEstimatedRangeSizeBytes tr begin_key_name
          begin_key_name_length end_key_name end_key_name_length (s, log)).2 = (s, log)) ∧
      (∀ fp, api.transactionGetEstimatedRangeSizeBytes_ = some fp →
        api.transactionGetEstimatedRangeSizeBytes tr begin_key_name begin_key_name_length
            end_key_name end_key_name_length s
          = (Outcome.ok
              (fp tr begin_key_name begin_key_name_length end_key_name end_key_name_length s).1,
             (fp tr begin_key_name begin_key_name_length end_key_name end_key_name_length s).2)))
    ∧
    -- transactionGetRangeSplitPoints
    (((api.transactionGetRangeSplitPoints tr begin_key_name begin_key_name_length
          end_key_name end_key_name_length chunkSize s).1
          = Outcome.thrown Error.unsupported_operation ↔
        api.transactionGetRangeSplitPoints_ = none) ∧
      (((record api).transactionGetRangeSplitPoints tr begin_key_name begin_key_name_length
          end_key_name end_key_name_length chunkSize (s, log)).1
          = Outcome.thrown Error.unsupported_operation →
        ((record api).transactionGetRangeSplitPoints tr begin_key_name begin_key_name_length
          end_key_name end_key_name_length chunkSize (s, log)).2 = (s, log)) ∧
      (∀ fp, api.transactionGetRangeSplitPoints_ = some fp →
        api.transactionGetRangeSplitPoints tr begin_key_name begin_key_name_length
            end_key_name end_key_name_length chunkSize s
          = (Outcome.ok (fp tr begin_key_name begin_key_name_length end_key_name
                end_key_name_length chunkSize s).1,
             (fp tr begin_key_name begin_key_name_length end_key_name end_key_name_length
                chunkSize s).2))) ∧
    -- transactionGetApproximateSize
    (((api.transactionGetApproximateSize tr s).1 = Outcome.thrown Error.unsupported_operation ↔
        api.transactionGetApproximateSize_ = none) ∧
      (((record api).transactionGetApproximateSize tr (s, log)).1
          = Outcome.thrown Error.unsupported_operation →
        ((record api).transactionGetApproximateSize tr (s, log)).2 = (s, log)) ∧
      (∀ fp, api.transactionGetApproximateSize_ = some fp →
        api.transactionGetApproximateSize tr s = (Outcome.ok (fp tr s).1, (fp tr s).2))) := by
  refine ⟨⟨?_, ?_, ?_⟩, ⟨?_, ?_, ?_⟩, ⟨?_, ?_, ?_⟩, ⟨?_, ?_, ?_⟩⟩
  · cases h : api.transactionGetVersionstamp_ <;>
      simp [FdbCApi.transactionGetVersionstamp, h, M.throw, callPtr]
  · cases h : api.transactionGetVersionstamp_ <;>
      simp [FdbCApi.transactionGetVersionstamp, record, instrument, h, M.throw, callPtr]
  · intro fp h
    simp [FdbCApi.transactionGetVersionstamp, h, callPtr]
  · cases h : api.transactionGetEstimatedRangeSizeBytes_ <;>
      simp [FdbCApi.transactionGetEstimatedRangeSizeBytes, h, M.throw, callPtr]
  · cases h : api.transactionGetEstimatedRangeSizeBytes_ <;>
      simp [FdbCApi.transactionGetEstimatedRangeSizeBytes, record, instrument, h, M.throw,
        callPtr]
  · intro fp h
    simp [FdbCApi.transactionGetEstimatedRangeSizeBytes, h, callPtr]
  · cases h : api.transactionGetRangeSplitPoints_ <;>
      simp [FdbCApi.transactionGetRangeSplitPoints, h, M.throw, callPtr]
  · cases h : api.transactionGetRangeSplitPoints_ <;>
      simp [FdbCApi.transactionGetRangeSplitPoints, record, instrument, h, M.throw, callPtr]
  · intro fp h
    simp [FdbCApi.transactionGetRangeSplitPoints, h, callPtr]
  · cases h : api.transactionGetApproximateSize_ <;>
      simp [FdbCApi.transactionGetApproximateSize, h, M.throw, callPtr]
  · cases h : api.transactionGetApproximateSize_ <;>
      simp [FdbCApi.transactionGetApproximateSize, record, instrument, h, M.throw, callPtr]
  · intro fp h
    simp [FdbCApi.transactionGetApproximateSize, h, callPtr]

/-- Witness for C1 on the concrete library: with the versionstamp pointer null the call throws
and nothing is logged; with it bound the call returns the library's future `1005`. -/
theorem optional_transaction_entries_witness :
    (unbind Entry.transactionGetVersionstamp stubLib).transactionGetVersionstamp_ = none ∧
    ((record (unbind Entry.transactionGetVersionstamp stubLib)).transactionGetVersionstamp
        4096 (5, [])).2 = (5, []) ∧
    stubLib.transactionGetVersionstamp 4096 5 = (Outcome.ok 1005, 6) :=
  ⟨rfl,
   (optional_transaction_entries (unbind Entry.transactionGetVersionstamp stubLib) 5 []
      4096 0 0 0 0 0).1.2.1 rfl,
   (optional_transaction_entries stubLib 5 [] 4096 0 0 0 0 0).1.2.2 _ rfl⟩


/-- Claim C2.  Each of the three optional database wrappers (`databaseRebootWorker`,
`databaseForceRecoveryWithDataLoss`, `databaseCreateSnapshot`), for every table, library state
and arguments: it throws `unsupported_operation` exactly when its pointer is null; when it
throws, the library state and the log of calls received by the library are unchanged (the
library is not called); when the pointer is bound the wrapper forwards: it returns what the
bound function returns, and the library receives exactly one call, with the wrapper's
arguments in the wrapper's order. -/
theorem optional_database_entries (api : FdbCApi σ) (s : σ) (log : List Call)
    (database address dcid uid snapshotCommmand : Ptr)
    (addressLength duration dcidLength uidLength snapshotCommandLength : Int)
    (check : fdb_bool_t) :
    -- databaseRebootWorker
    (((api.databaseRebootWorker database address addressLength check duration s).1
          = Outcome.thrown Error.unsupported_operation ↔ api.databaseRebootWorker_ = none) ∧
      (((record api).databaseRebootWorker database address addressLength check duration
          (s, log)).1 = Outcome.thrown Error.unsupported_operation →
        ((record api).databaseRebootWorker database address addressLength check duration
          (s, log)).2 = (s, log)) ∧
      (∀ fp, api.databaseRebootWorker_ = some fp →
        Forwards (api.databaseRebootWorker database address addressLength check duration)
          ((record api).databaseRebootWorker database address addressLength check duration)
          (fp database address addressLength check duration)
          (Call.databaseRebootWorker database address addressLength check duration))) ∧
    -- databaseForceRecoveryWithDataLoss
    (((api.databaseForceRecoveryWithDataLoss database dcid dcidLength s).1
          = Outcome.thrown Error.unsupported_operation ↔
        api.databaseForceRecoveryWithDataLoss_ = none) ∧
      (((record api).databaseForceRecoveryWithDataLoss database dcid dcidLength (s, log)).1
          = Outcome.thrown Error.unsupported_operation →
        ((record api).databaseForceRecoveryWithDataLoss database dcid dcidLength (s, log)).2
          = (s, log)) ∧
      (∀ fp, api.databaseForceRecoveryWithDataLoss_ = some fp →
        Forwards (api.databaseForceRecoveryWithDataLoss database dcid dcidLength)
          ((record api).databaseForceRecoveryWithDataLoss database dcid dcidLength)
          (fp database dcid dcidLength)
          (Call.databaseForceRecoveryWithDataLoss database dcid dcidLength))) ∧
    -- databaseCreateSnapshot
    (((api.databaseCreateSnapshot database uid uidLength snapshotCommmand
          snapshotCommandLength s).1 = Outcome.thrown Error.unsupported_operation ↔
        api.databaseCreateSnapshot_ = none) ∧
      (((record api).databaseCreateSnapshot database uid uidLength snapshotCommmand
          snapshotCommandLength (s, log)).1 = Outcome.thrown Error.unsupported_operation →
        ((record api).databaseCreateSnapshot database uid uidLength snapshotCommmand
          snapshotCommandLength (s, log)).2 = (s, log)) ∧
      (∀ fp, api.databaseCreateSnapshot_ = some fp →
        Forwards
          (api.databaseCreateSnapshot database uid uidLength snapshotCommmand
            snapshotCommandLength)
          ((record api).databaseCreateSnapshot database uid uidLength snapshotCommmand
            snapshotCommandLength)
          (fp database uid uidLength snapshotCommmand snapshotCommandLength)
          (Call.databaseCreateSnapshot database uid uidLength snapshotCommmand
            snapshotCommandLength))) := by
  refine ⟨⟨?_, ?_, ?_⟩, ⟨?_, ?_, ?_⟩, ⟨?_, ?_, ?_⟩⟩
  · cases h : api.databaseRebootWorker_ <;>
      simp [FdbCApi.databaseRebootWorker, h, M.throw, callPtr]
  · cases h : api.databaseRebootWorker_ <;>
      simp [FdbCApi.databaseRebootWorker, record, instrument, h, M.throw, callPtr]
  · intro fp h
    constructor
    · intro s1
      simp [FdbCApi.databaseRebootWorker, h, callPtr]
    · intro s1 log1
      simp [FdbCApi.databaseRebootWorker, record, instrument, h, callPtr, logged]
  · cases h : api.databaseForceRecoveryWithDataLoss_ <;>
      simp [FdbCApi.databaseForceRecoveryWithDataLoss, h, M.throw, callPtr]
  · cases h : api.databaseForceRecoveryWithDataLoss_ <;>
      simp [FdbCApi.databaseForceRecoveryWithDataLoss, record, instrument, h, M.throw, callPtr]
  · intro fp h
    constructor
    · intro s1
      simp [FdbCApi.databaseForceRecoveryWithDataLoss, h, callPtr]
    · intro s1 log1
      simp [FdbCApi.databaseForceRecoveryWithDataLoss, record, instrument, h, callPtr, logged]
  · cases h : api.databaseCreateSnapshot_ <;>
      simp [FdbCApi.databaseCreateSnapshot, h, M.throw, callPtr]
  · cases h : api.databaseCreateSnapshot_ <;>
      simp [FdbCApi.databaseCreateSnapshot, record, instrument, h, M.throw, callPtr]
  · intro fp h
    constructor
    · intro s1
      simp [FdbCApi.databaseCreateSnapshot, h, callPtr]
    · intro s1 log1
      simp [FdbCApi.databaseCreateSnapshot, record, instrument, h, callPtr, logged]

/-- Witness for C2 on the concrete library: with the reboot-worker pointer null the call throws
and nothing is logged; with it bound the library receives the one call with the arguments in
order and its future `1005` is returned. -/
theorem optional_database_entries_witness :
    ((record (unbind Entry.databaseRebootWorker stubLib)).databaseRebootWorker 4096 4097 4 1 30
        (5, [])).2 = (5, []) ∧
    (record stubLib).databaseRebootWorker 4096 4097 4 1 30 (5, [])
      = (Outcome.ok 1005, (6, [Call.databaseRebootWorker 4096 4097 4 1 30])) :=
  ⟨(optional_database_entries (unbind Entry.databaseRebootWorker stubLib) 5 []
      4096 4097 0 0 0 4 30 0 0 0 1).1.2.1 rfl,
   ((optional_database_entries stubLib 5 [] 4096 4097 0 0 0 4 30 0 0 0 1).1.2.2 _ rfl).2 5 []⟩


/-! ## Main-thread busyness and server protocol -/

/-- Claim C3, refuted as stated.  On the concrete library with the busyness pointer null,
`databaseGetMainThreadBusyness` returns `0`; it does not throw `unsupported_operation`. -/
theorem busyness_unbound_counterexample :
    (unbind Entry.databaseGetMainThreadBusyness stubLib).databaseGetMainThreadBusyness_ = none ∧
    (unbind Entry.databaseGetMainThreadBusyness stubLib).databaseGetMainThreadBusyness 4096 5
      = (Outcome.ok 0, 5) ∧
    ((unbind Entry.databaseGetMainThreadBusyness stubLib).databaseGetMainThreadBusyness 4096 5).1
      ≠ Outcome.thrown Error.unsupported_operation := by
  refine ⟨rfl, rfl, ?_⟩
  intro h
  cases h

/-- Claim C3, amended.  When the busyness pointer is null, every call of
`databaseGetMainThreadBusyness` returns `0` and fails in no way; the library state and the log
of calls received by the library are unchanged. -/
theorem busyness_unbound_returns_zero (api : FdbCApi σ)
    (h : api.databaseGetMainThreadBusyness_ = none) (database : Ptr) (s : σ) (log : List Call) :
    api.databaseGetMainThreadBusyness database s = (Outcome.ok 0, s) ∧
    (record api).databaseGetMainThreadBusyness database (s, log) = (Outcome.ok 0, (s, log)) := by
  constructor
  · simp [FdbCApi.databaseGetMainThreadBusyness, h, M.ret]
  · simp [FdbCApi.databaseGetMainThreadBusyness, record, instrument, h, M.ret]

/-- Witness for the amended C3 on the concrete library with the busyness pointer null. -/
theorem busyness_unbound_returns_zero_witness :
    (unbind Entry.databaseGetMainThreadBusyness stubLib).databaseGetMainThreadBusyness 4096 5
      = (Outcome.ok 0, 5) ∧
    (record (unbind Entry.databaseGetMainThreadBusyness stubLib)).databaseGetMainThreadBusyness
      4096 (5, []) = (Outcome.ok 0, (5, [])) :=
  busyness_unbound_returns_zero (unbind Entry.databaseGetMainThreadBusyness stubLib) rfl 4096 5 []

/-- Claim C4, refuted as stated.  On the concrete library with the server-protocol pointer
null, `databaseGetServerProtocol` ends in a failed `ASSERT`; it does not throw
`unsupported_operation`. -/
theorem serverProtocol_unbound_counterexample :
    (unbind Entry.databaseGetServerProtocol stubLib).databaseGetServerProtocol_ = none ∧
    (unbind Entry.databaseGetServerProtocol stubLib).databaseGetServerProtocol 4096 7 5
      = (Outcome.assertFailed, 5) ∧
    ((unbind Entry.databaseGetServerProtocol stubLib).databaseGetServerProtocol 4096 7 5).1
      ≠ Outcome.thrown Error.unsupported_operation := by
  refine ⟨rfl, rfl, ?_⟩
  intro h
  cases h

/-- Claim C4, amended.  When the server-protocol pointer is null, every call of
`databaseGetServerProtocol`, for every database handle and every expected version, fails the
assertion `ASSERT(databaseGetServerProtocol_ != nullptr)`; the library state and the log of
calls received by the library are unchanged. -/
theorem serverProtocol_unbound_assert_fails (api : FdbCApi σ)
    (h : api.databaseGetServerProtocol_ = none) (database : Ptr) (expectedVersion : Nat)
    (s : σ) (log : List Call) :
    api.databaseGetServerProtocol database expectedVersion s = (Outcome.assertFailed, s) ∧
    (record api).databaseGetServerProtocol database expectedVersion (s, log)
      = (Outcome.assertFailed, (s, log)) := by
  constructor
  · simp [FdbCApi.databaseGetServerProtocol, h, M.seq, ASSERT]
  · simp [FdbCApi.databaseGetServerProtocol, record, instrument, h, M.seq, ASSERT]

/-- Witness for the amended C4 on the concrete library with the server-protocol pointer null. -/
theorem serverProtocol_unbound_assert_fails_witness :
    (unbind Entry.databaseGetServerProtocol stubLib).databaseGetServerProtocol 4096 7 5
      = (Outcome.assertFailed, 5) ∧
    (record (unbind Entry.databaseGetServerProtocol stubLib)).databaseGetServerProtocol 4096 7
      (5, []) = (Outcome.assertFailed, (5, [])) :=
  serverProtocol_unbound_assert_fails (unbind Entry.databaseGetServerProtocol stubLib) rfl
    4096 7 5 []


/-! ## Which wrappers test their pointer -/

theorem guardsPointer_iff (e : Entry) (a : Args) (api : FdbCApi σ) (s : σ) :
    guardsPointer e a api s = true ↔ e ∈ guardedEntries := by
  cases e <;> first
    | exact ⟨fun _ => by decide, fun _ => rfl⟩
    | exact ⟨fun (h : false = true) => Bool.noConfusion h, fun h => absurd h (by decide)⟩

theorem runWrapper_bound (e : Entry) (a : Args) (api : FdbCApi σ) (s : σ) (log : List Call)
    (h : isBound e api = true) :
    (runWrapper e a (record api) (s, log)).1 = Outcome.ok () ∧
    (runWrapper e a (record api) (s, log)).2.2 = log ++ [callOf e a] := by
  cases api
  cases e <;>
    (simp only [isBound, Option.isSome_iff_exists] at h
     obtain ⟨fp, hfp⟩ := h
     subst hfp
     exact ⟨rfl, rfl⟩)

theorem runWrapper_unguarded (e : Entry) (a : Args) (api : FdbCApi σ) (s : σ)
    (h : e ∉ guardedEntries) : runWrapper e a (unbind e api) s = (Outcome.nullCall, s) := by
  cases e <;> first
    | rfl
    | exact absurd (by decide) h

/-- Claim C5, refuted as stated.  The wrapper `getClientVersion` also tests its pointer: with
the pointer null it returns the string "unknown" instead of calling through the pointer, yet
`getClientVersion` is not one of the nine entry points the specification lists. -/
theorem getClientVersion_guard_counterexample :
    guardsPointer Entry.getClientVersion stubArgs stubLib 5 = true ∧
    (unbind Entry.getClientVersion stubLib).getClientVersion 5 = (Outcome.ok "unknown", 5) ∧
    Entry.getClientVersion ∉ specOptionalEntries :=
  ⟨rfl, rfl, by decide⟩

/-- Claim C5, amended.  The wrappers that test their pointer before using it are exactly ten:
those of the nine entry points the specification lists and `getClientVersion`.  For every
entry point `e`, table, library state and arguments: run with its pointer null, the wrapper of
`e` avoids the call through the null pointer exactly when `e` is one of the ten, and every
other wrapper calls through its (null) pointer without touching the library; run with its
pointer bound, every wrapper returns normally and the library receives exactly one call, to
`e` itself, with the wrapper's arguments in declaration order. -/
theorem guarded_wrappers_exactly_ten (e : Entry) (a : Args) (api : FdbCApi σ) (s : σ)
    (log : List Call) :
    (guardsPointer e a api s = true ↔ e ∈ guardedEntries) ∧
    (e ∉ guardedEntries → runWrapper e a (unbind e api) s = (Outcome.nullCall, s)) ∧
    (isBound e api = true →
      (runWrapper e a (record api) (s, log)).1 = Outcome.ok () ∧
      (runWrapper e a (record api) (s, log)).2.2 = log ++ [callOf e a]) ∧
    (callOf e a).entry = e ∧
    guardedEntries.length = 10 ∧ guardedEntries.Nodup ∧
    (∀ x, x ∈ guardedEntries ↔ x = Entry.getClientVersion ∨ x ∈ specOptionalEntries) := by
  refine ⟨guardsPointer_iff e a api s, runWrapper_unguarded e a api s,
    runWrapper_bound e a api s log, ?_, rfl, by decide, ?_⟩
  · cases e <;> rfl
  · intro x
    simp [guardedEntries]

/-- Witness for the amended C5 on the concrete library: `transactionGet` is not one of the ten,
with its pointer null the wrapper calls through the null pointer, with it bound the library
receives the one call. -/
theorem guarded_wrappers_exactly_ten_witness :
    runWrapper Entry.transactionGet stubArgs (unbind Entry.transactionGet stubLib) 5
      = (Outcome.nullCall, 5) ∧
    (runWrapper Entry.transactionGet stubArgs (record stubLib) (5, [])).2.2
      = [] ++ [Call.transactionGet 4096 4097 1 2] :=
  ⟨(guarded_wrappers_exactly_ten Entry.transactionGet stubArgs stubLib 5 []).2.1 (by decide),
   ((guarded_wrappers_exactly_ten Entry.transactionGet stubArgs stubLib 5 []).2.2.1 rfl).2⟩


/-! ## Required entry points are forwarded unchanged -/

/-- Claim C6.  `setNetworkOption`, `databaseSetOption` and `transactionSetOption` pass options
through untouched: whenever the entry point is bound, for every handle, option code, value
pointer and value length, the wrapper returns the error code the entry point returns on the
same handle, option code, value pointer and length (called in the library state the wrapper
was called in, so the bytes behind the pointer are the same) and leaves the library as the
entry point leaves it; the library receives exactly that one call. -/
theorem options_passed_through (api : FdbCApi σ) (handle value : Ptr) (option valueLength : Int) :
    (∀ fp, api.setNetworkOption_ = some fp →
      Forwards (api.setNetworkOption option value valueLength)
        ((record api).setNetworkOption option value valueLength)
        (fp option value valueLength)
        (Call.setNetworkOption option value valueLength)) ∧
    (∀ fp, api.databaseSetOption_ = some fp →
      Forwards (api.databaseSetOption handle option value valueLength)
        ((record api).databaseSetOption handle option value valueLength)
        (fp handle option value valueLength)
        (Call.databaseSetOption handle option value valueLength)) ∧
    (∀ fp, api.transactionSetOption_ = some fp →
      Forwards (api.transactionSetOption handle option value valueLength)
        ((record api).transactionSetOption handle option value valueLength)
        (fp handle option value valueLength)
        (Call.transactionSetOption handle option value valueLength)) := by
  cases api
  refine ⟨?_, ?_, ?_⟩ <;>
    (intro fp h
     simp only at h
     subst h
     exact ⟨fun _ => rfl, fun _ _ => rfl⟩)

/-- Witness for C6 on the concrete library: the wrapper hands back the error code `0` of the
library and the library sees the one call with the same option code, pointer and length. -/
theorem options_passed_through_witness :
    (record stubLib).setNetworkOption 2000 4096 8 (5, [])
      = (Outcome.ok 0, (6, [Call.setNetworkOption 2000 4096 8])) :=
  ((options_passed_through stubLib 0 4096 2000 8).1 _ rfl).2 5 []

/-- Claim C7.  The required transaction data wrappers (`transactionGet`, `transactionGetKey`,
`transactionGetAddressesForKey`, `transactionGetRange`, `transactionSet`, `transactionClear`,
`transactionClearRange`, `transactionAtomicOp`, `transactionAddConflictRange`) forward to
their entry point: whenever the entry point is bound, the wrapper returns what the entry point
returns on the wrapper's arguments, unchanged and in declaration order (all fifteen for
`transactionGetRange`; key, length, or-equal, offset, snapshot for `transactionGetKey`; begin
key before end key for `transactionClearRange` and `transactionAddConflictRange`), and the
library receives exactly that one call and no other. -/
theorem transaction_data_forwarded (api : FdbCApi σ)
    (tr keyName value param beginKeyName endKeyName : Ptr)
    (keyNameLength valueLength paramLength beginKeyNameLength endKeyNameLength : Int)
    (snapshot orEqual beginOrEqual endOrEqual reverse : fdb_bool_t)
    (offset beginOffset endOffset limit targetBytes iteration : Int)
    (mode : FDBStreamingMode) (operationType : FDBMutationType) (type : FDBConflictRangeType) :
    (∀ fp, api.transactionGet_ = some fp →
      Forwards (api.transactionGet tr keyName keyNameLength snapshot)
        ((record api).transactionGet tr keyName keyNameLength snapshot)
        (fp tr keyName keyNameLength snapshot)
        (Call.transactionGet tr keyName keyNameLength snapshot)) ∧
    (∀ fp, api.transactionGetKey_ = some fp →
      Forwards (api.transactionGetKey tr keyName keyNameLength orEqual offset snapshot)
        ((record api).transactionGetKey tr keyName keyNameLength orEqual offset snapshot)
        (fp tr keyName keyNameLength orEqual offset snapshot)
        (Call.transactionGetKey tr keyName keyNameLength orEqual offset snapshot)) ∧
    (∀ fp, api.transactionGetAddressesForKey_ = some fp →
      Forwards (api.transactionGetAddressesForKey tr keyName keyNameLength)
        ((record api).transactionGetAddressesForKey tr keyName keyNameLength)
        (fp tr keyName keyNameLength)
        (Call.transactionGetAddressesForKey tr keyName keyNameLength)) ∧
    (∀ fp, api.transactionGetRange_ = some fp →
      Forwards
        (api.transactionGetRange tr beginKeyName beginKeyNameLength beginOrEqual beginOffset
          endKeyName endKeyNameLength endOrEqual endOffset limit targetBytes mode iteration
          snapshot reverse)
        ((record api).transactionGetRange tr beginKeyName beginKeyNameLength beginOrEqual
          beginOffset endKeyName endKeyNameLength endOrEqual endOffset limit targetBytes mode
          iteration snapshot reverse)
        (fp tr beginKeyName beginKeyNameLength beginOrEqual beginOffset endKeyName
          endKeyNameLength endOrEqual endOffset limit targetBytes mode iteration snapshot
          reverse)
        (Call.transactionGetRange tr beginKeyName beginKeyNameLength beginOrEqual beginOffset
          endKeyName endKeyNameLength endOrEqual endOffset limit targetBytes mode iteration
          snapshot reverse)) ∧
    (∀ fp, api.transactionSet_ = some fp →
      Forwards (api.transactionSet tr keyName keyNameLength value valueLength)
        ((record api).transactionSet tr keyName keyNameLength value valueLength)
        (fp tr keyName keyNameLength value valueLength)
        (Call.transactionSet tr keyName keyNameLength value valueLength)) ∧
    (∀ fp, api.transactionClear_ = some fp →
      Forwards (api.transactionClear tr keyName keyNameLength)
        ((record api).transactionClear tr keyName keyNameLength)
        (fp tr keyName keyNameLength)
        (Call.transactionClear tr keyName keyNameLength)) ∧
    (∀ fp, api.transactionClearRange_ = some fp →
      Forwards
        (api.transactionClearRange tr beginKeyName beginKeyNameLength endKeyName
          endKeyNameLength)
        ((record api).transactionClearRange tr beginKeyName beginKeyNameLength endKeyName
          endKeyNameLength)
        (fp tr beginKeyName beginKeyNameLength endKeyName endKeyNameLength)
        (Call.transactionClearRange tr beginKeyName beginKeyNameLength endKeyName
          endKeyNameLength)) ∧
    (∀ fp, api.transactionAtomicOp_ = some fp →
      Forwards (api.transactionAtomicOp tr keyName keyNameLength param paramLength operationType)
        ((record api).transactionAtomicOp tr keyName keyNameLength param paramLength
          operationType)
        (fp tr keyName keyNameLength param paramLength operationType)
        (Call.transactionAtomicOp tr keyName keyNameLength param paramLength operationType)) ∧
    (∀ fp, api.transactionAddConflictRange_ = some fp →
      Forwards
        (api.transactionAddConflictRange tr beginKeyName beginKeyNameLength endKeyName
          endKeyNameLength type)
        ((record api).transactionAddConflictRange tr beginKeyName beginKeyNameLength endKeyName
          endKeyNameLength type)
        (fp tr beginKeyName beginKeyNameLength endKeyName endKeyNameLength type)
        (Call.transactionAddConflictRange tr beginKeyName beginKeyNameLength endKeyName
          endKeyNameLength type)) := by
  cases api
  refine ⟨?_, ?_, ?_, ?_, ?_, ?_, ?_, ?_, ?_⟩ <;>
    (intro fp h
     simp only at h
     subst h
     exact ⟨fun _ => rfl, fun _ _ => rfl⟩)

/-- Witness for C7 on a library whose range read entry point is the concrete one: the fifteen
arguments reach the library in position order and its future `1005` comes back. -/
theorem transaction_data_forwarded_witness :
    (record stubLib).transactionGetRange 4096 4097 3 1 2 4098 5 0 1 100 8000 6 1 0 1 (5, [])
      = (Outcome.ok 1005,
          (6, [Call.transactionGetRange 4096 4097 3 1 2 4098 5 0 1 100 8000 6 1 0 1])) :=
  ((transaction_data_forwarded stubLib 4096 0 0 0 4097 4098 0 0 0 3 5 0 0 1 0 1 0 2 1 100 8000 1
      6 0 0).2.2.2.1 _ rfl).2 5 []


/-! ## Handle ownership of the adapters -/

/-- Claim C8.  A `DLTransaction` destroys its handle on drop: for every table whose
`transactionDestroy` entry point is bound and every handle `h`, the adapter constructed with
`h` stores exactly `h`, and its destructor forwards to `transactionDestroy` with exactly `h`:
the library receives that one call and no other (so no other destroy entry point runs). -/
theorem dlTransaction_destroys_handle (api : FdbCApi σ) (h : Ptr)
    (fp : Ptr → Lib σ Unit) (hb : api.transactionDestroy_ = some fp) :
    (DLTransaction.construct api h).tr = h ∧
    Forwards (DLTransaction.construct api h).destruct
      (DLTransaction.construct (record api) h).destruct
      (fp h) (Call.transactionDestroy h) := by
  cases api
  simp only at hb
  subst hb
  exact ⟨rfl, fun _ => rfl, fun _ _ => rfl⟩

/-- Witness for C8 on the concrete library: dropping the adapter of handle `4096` makes the
library receive the single call `transactionDestroy(4096)`. -/
theorem dlTransaction_destroys_handle_witness :
    (DLTransaction.construct (record stubLib) 4096).destruct (5, [])
      = (Outcome.ok (), (6, [Call.transactionDestroy 4096])) :=
  (dlTransaction_destroys_handle stubLib 4096 _ rfl).2.2 5 []

/-- Claim C9.  Dropping a `DLDatabase`, for every table, every stored handle and every state
of the ready future: when the stored handle is set (and the `databaseDestroy` entry point is
bound) the destructor forwards to `databaseDestroy` with that handle, so the library receives
that one call and no other; when the stored handle is null the destructor returns without any
call (library state and log unchanged); and in no case does the log gain a call of
`databaseDestroy` on the null handle. -/
theorem dlDatabase_destroys_handle_once (api : FdbCApi σ) (db : Ptr) (ready : ThreadFuture Unit)
    (s : σ) (log : List Call) :
    (∀ fp, api.databaseDestroy_ = some fp → db ≠ 0 →
      Forwards (DLDatabase.mk api db ready).destruct (DLDatabase.mk (record api) db ready).destruct
        (fp db) (Call.databaseDestroy db)) ∧
    (db = 0 →
      (DLDatabase.mk api db ready).destruct s = (Outcome.ok (), s) ∧
      (DLDatabase.mk (record api) db ready).destruct (s, log) = (Outcome.ok (), (s, log))) ∧
    (Call.databaseDestroy 0 ∉ log →
      Call.databaseDestroy 0 ∉ ((DLDatabase.mk (record api) db ready).destruct (s, log)).2.2) := by
  refine ⟨?_, ?_, ?_⟩
  · intro fp hb hdb
    constructor
    · intro s1
      simp [DLDatabase.destruct, hdb, FdbCApi.databaseDestroy, hb, callPtr]
    · intro s1 log1
      simp [DLDatabase.destruct, hdb, FdbCApi.databaseDestroy, record, instrument, hb, callPtr,
        logged]
  · intro hdb
    subst hdb
    exact ⟨rfl, rfl⟩
  · intro hlog
    by_cases hdb : db = 0
    · subst hdb
      exact hlog
    · cases hb : api.databaseDestroy_ <;>
        simp [DLDatabase.destruct, hdb, FdbCApi.databaseDestroy, record, instrument, hb,
          callPtr, logged, hlog, Ne.symm hdb]

/-- Witness for C9 on the concrete library: dropping the adapter of handle `4096` destroys it
once, dropping an adapter whose handle is still null calls nothing. -/
theorem dlDatabase_destroys_handle_once_witness :
    (DLDatabase.mk (record stubLib) 4096 (ThreadFuture.value ())).destruct (5, [])
      = (Outcome.ok (), (6, [Call.databaseDestroy 4096])) ∧
    (DLDatabase.mk (record stubLib) 0 ThreadFuture.pending).destruct (5, [])
      = (Outcome.ok (), (5, [])) :=
  ⟨((dlDatabase_destroys_handle_once stubLib 4096 (ThreadFuture.value ()) 5 []).1 _ rfl
      (by decide)).2 5 [],
   ((dlDatabase_destroys_handle_once stubLib 0 ThreadFuture.pending 5 []).2.1 rfl).2⟩


/-! ## Client descriptors -/

theorem ClientInfo.assign_toClientDesc (c : ClientInfo) (op : ClientInfo.Assign) :
    (c.assign op).toClientDesc = c.toClientDesc := by
  cases op <;> rfl

theorem ClientInfo.foldl_assign_toClientDesc (ops : List ClientInfo.Assign) (c : ClientInfo) :
    (ops.foldl ClientInfo.assign c).toClientDesc = c.toClientDesc := by
  induction ops generalizing c with
  | nil => rfl
  | cons op rest ih =>
    rw [List.foldl_cons, ih, ClientInfo.assign_toClientDesc]

/-- Claim C10.  The descriptor of a client is fixed by the constructor: `ClientInfo(api)` has
`external = false` and `libPath = "internal"`, `ClientInfo(api, path)` has `external = true` and
`libPath = path` for every path; both start with `failed = false`, protocol version `0` and
the given `api`; and after any sequence of assignments to the members that are not `const`
(`protocolVersion`, `api`, `failed`, `threadCompletionHooks`) `libPath` and `external` are
still what the constructor made them. -/
theorem clientInfo_descriptor_fixed (api : Ptr) (path : String)
    (ops : List ClientInfo.Assign) :
    ((ClientInfo.ofApi api).external = false ∧
      (ClientInfo.ofApi api).libPath = "internal" ∧
      (ClientInfo.ofApi api).failed = false ∧
      (ClientInfo.ofApi api).protocolVersion = ⟨0⟩ ∧
      (ClientInfo.ofApi api).api = api) ∧
    ((ClientInfo.ofApiLibPath api path).external = true ∧
      (ClientInfo.ofApiLibPath api path).libPath = path ∧
      (ClientInfo.ofApiLibPath api path).failed = false ∧
      (ClientInfo.ofApiLibPath api path).protocolVersion = ⟨0⟩ ∧
      (ClientInfo.ofApiLibPath api path).api = api) ∧
    ((ops.foldl ClientInfo.assign (ClientInfo.ofApi api)).external = false ∧
      (ops.foldl ClientInfo.assign (ClientInfo.ofApi api)).libPath = "internal") ∧
    ((ops.foldl ClientInfo.assign (ClientInfo.ofApiLibPath api path)).external = true ∧
      (ops.foldl ClientInfo.assign (ClientInfo.ofApiLibPath api path)).libPath = path) := by
  refine ⟨⟨rfl, rfl, rfl, rfl, rfl⟩, ⟨rfl, rfl, rfl, rfl, rfl⟩, ?_, ?_⟩
  · have h := ClientInfo.foldl_assign_toClientDesc ops (ClientInfo.ofApi api)
    exact ⟨congrArg ClientDesc.external h, congrArg ClientDesc.libPath h⟩
  · have h := ClientInfo.foldl_assign_toClientDesc ops (ClientInfo.ofApiLibPath api path)
    exact ⟨congrArg ClientDesc.external h, congrArg ClientDesc.libPath h⟩

/-! ## Replacement of clients and the client registry -/

/-- Claim C11.  `canReplace`, for every pair of clients, every normalization and every
preference: `self.canReplace(other)` is true iff the normalized protocol versions of `self` and
`other` are equal, `self` is not failed and `self` is preferred over `other`.  So a failed
client never replaces another, clients with different normalized versions never replace each
other, and under a preference that puts clients that are not external before external ones a
working client that is not external replaces an external one of equal normalized version. -/
theorem canReplace_iff (normalized : ProtocolVersion → ProtocolVersion)
    (preferred : ClientInfo → ClientInfo → Bool) (self other : ClientInfo) :
    (self.canReplace normalized preferred other = true ↔
      normalized self.protocolVersion = normalized other.protocolVersion ∧
        self.failed = false ∧ preferred self other = true) ∧
    (self.failed = true → self.canReplace normalized preferred other = false) ∧
    (normalized self.protocolVersion ≠ normalized other.protocolVersion →
      self.canReplace normalized preferred other = false ∧
      other.canReplace normalized preferred self = false) ∧
    ((∀ a b : ClientInfo, a.external = false → b.external = true → preferred a b = true) →
      normalized self.protocolVersion = normalized other.protocolVersion →
      self.failed = false → self.external = false → other.external = true →
      self.canReplace normalized preferred other = true) := by
  refine ⟨?_, ?_, ?_, ?_⟩
  · simp [ClientInfo.canReplace, and_assoc]
  · intro h
    simp [ClientInfo.canReplace, h]
  · intro h
    constructor
    · simp [ClientInfo.canReplace, h]
    · simp [ClientInfo.canReplace, Ne.symm h]
  · intro hp hv hf hs ho
    simp [ClientInfo.canReplace, hv, hf, hp self other hs ho]

/-- Witness for C11: the local client replaces the external client whose version differs
only in the low bits; marked failed it does not; and it does not replace the external client
of another version. -/
theorem canReplace_iff_witness :
    localClient70.canReplace maskLowBits preferNonExternal externalClient70 = true ∧
    ({ localClient70 with failed := true } : ClientInfo).canReplace maskLowBits
        preferNonExternal externalClient70 = false ∧
    localClient70.canReplace maskLowBits preferNonExternal externalClient63 = false :=
  ⟨(canReplace_iff maskLowBits preferNonExternal localClient70 externalClient70).2.2.2
      (fun a b ha hb => by simp [preferNonExternal, ha, hb]) (by decide) rfl rfl rfl,
   (canReplace_iff maskLowBits preferNonExternal _ externalClient70).2.1 rfl,
   ((canReplace_iff maskLowBits preferNonExternal localClient70 externalClient63).2.2.1
      (by decide)).1⟩

theorem ClientMap.keys_assign (m : ClientMap) (key : ProtocolVersion) (client : ClientInfo) :
    (m.assign key client).map Prod.fst
      = if key ∈ m.map Prod.fst then m.map Prod.fst else m.map Prod.fst ++ [key] := by
  induction m with
  | nil => simp [ClientMap.assign]
  | cons p rest ih =>
    obtain ⟨k, c⟩ := p
    by_cases hk : k = key
    · simp [ClientMap.assign, hk]
    · have hk2 : ¬ key = k := fun h => hk h.symm
      by_cases hr : key ∈ rest.map Prod.fst
      · simp only [ClientMap.assign, hk, if_false, List.map_cons, ih, hr, if_true,
          List.mem_cons, or_true]
      · simp only [ClientMap.assign, hk, if_false, List.map_cons, ih, hr, List.mem_cons, hk2,
          or_self, List.cons_append]

theorem ClientMap.mem_assign (m : ClientMap) (key : ProtocolVersion) (client : ClientInfo)
    (p : ProtocolVersion × ClientInfo) (hp : p ∈ m.assign key client) :
    p ∈ m ∨ p = (key, client) := by
  induction m with
  | nil =>
    right
    simpa [ClientMap.assign] using hp
  | cons q rest ih =>
    obtain ⟨k, c⟩ := q
    by_cases hk : k = key
    · simp only [ClientMap.assign, hk, if_true, List.mem_cons] at hp
      rcases hp with h | h
      · right
        exact h
      · left
        exact List.mem_cons_of_mem _ h
    · simp only [ClientMap.assign, hk, if_false, List.mem_cons] at hp
      rcases hp with h | h
      · left
        rw [h]
        exact List.mem_cons_self _ _
      · rcases ih h with h2 | h2
        · left
          exact List.mem_cons_of_mem _ h2
        · right
          exact h2

/-- The invariant of the registry: keys are pairwise different and every client is stored
under its normalized protocol version. -/
theorem addClient_invariant (normalized : ProtocolVersion → ProtocolVersion)
    (preferred : ClientInfo → ClientInfo → Bool) (m : ClientMap) (client : ClientInfo)
    (hk : (m.map Prod.fst).Nodup)
    (hv : ∀ p ∈ m, p.1 = normalized p.2.protocolVersion) :
    ((addClient normalized preferred m client).map Prod.fst).Nodup ∧
    ∀ p ∈ addClient normalized preferred m client, p.1 = normalized p.2.protocolVersion := by
  have hassign : ((m.assign (normalized client.protocolVersion) client).map Prod.fst).Nodup ∧
      ∀ p ∈ m.assign (normalized client.protocolVersion) client,
        p.1 = normalized p.2.protocolVersion := by
    constructor
    · rw [ClientMap.keys_assign]
      split
      · exact hk
      · rename_i hnot
        exact List.Nodup.append hk (List.nodup_singleton _) (by simpa using hnot)
    · intro p hp
      rcases ClientMap.mem_assign m _ client p hp with h | h
      · exact hv p h
      · rw [h]
  unfold addClient
  split
  · exact hassign
  · split
    · exact hassign
    · exact ⟨hk, hv⟩

theorem foldl_addClient_invariant (normalized : ProtocolVersion → ProtocolVersion)
    (preferred : ClientInfo → ClientInfo → Bool) (cs : List ClientInfo) (m : ClientMap)
    (hk : (m.map Prod.fst).Nodup)
    (hv : ∀ p ∈ m, p.1 = normalized p.2.protocolVersion) :
    ((cs.foldl (addClient normalized preferred) m).map Prod.fst).Nodup ∧
    ∀ p ∈ cs.foldl (addClient normalized preferred) m,
      p.1 = normalized p.2.protocolVersion := by
  induction cs generalizing m with
  | nil => exact ⟨hk, hv⟩
  | cons c rest ih =>
    rw [List.foldl_cons]
    obtain ⟨h1, h2⟩ := addClient_invariant normalized preferred m c hk hv
    exact ih _ h1 h2

theorem eq_of_nodup_keys (m : ClientMap) (hk : (m.map Prod.fst).Nodup)
    (p q : ProtocolVersion × ClientInfo) (hp : p ∈ m) (hq : q ∈ m) (h : p.1 = q.1) : p = q := by
  induction m with
  | nil => cases hp
  | cons r rest ih =>
    rw [List.map_cons, List.nodup_cons] at hk
    rw [List.mem_cons] at hp hq
    rcases hp with hp | hp <;> rcases hq with hq | hq
    · rw [hp, hq]
    · exfalso
      apply hk.1
      rw [← hp, h]
      exact List.mem_map_of_mem _ hq
    · exfalso
      apply hk.1
      rw [← hq, ← h]
      exact List.mem_map_of_mem _ hp
    · exact ih hk.2 hp hq

/-- Claim C13.  The client registry holds at most one client per normalized protocol version:
after any sequence of `addClient` calls on the empty registry, for every normalization and
preference, the keys of `clients` are pairwise different, every client is stored under the
normalized version of its own protocol version (so every key is a normalized version, a fixed
point of the normalization when that is idempotent), and no two entries have the same
normalized protocol version. -/
theorem registry_one_client_per_version (normalized : ProtocolVersion → ProtocolVersion)
    (preferred : ClientInfo → ClientInfo → Bool) (cs : List ClientInfo) :
    ((cs.foldl (addClient normalized preferred) []).map Prod.fst).Nodup ∧
    (∀ p ∈ cs.foldl (addClient normalized preferred) [],
      p.1 = normalized p.2.protocolVersion) ∧
    (∀ p ∈ cs.foldl (addClient normalized preferred) [],
      ∀ q ∈ cs.foldl (addClient normalized preferred) [],
        normalized p.2.protocolVersion = normalized q.2.protocolVersion → p = q) ∧
    ((∀ v, normalized (normalized v) = normalized v) →
      ∀ p ∈ cs.foldl (addClient normalized preferred) [], normalized p.1 = p.1) := by
  obtain ⟨hk, hv⟩ := foldl_addClient_invariant normalized preferred cs []
    List.nodup_nil (fun p hp => by cases hp)
  refine ⟨hk, hv, ?_, ?_⟩
  · intro p hp q hq h
    apply eq_of_nodup_keys _ hk p q hp hq
    rw [hv p hp, hv q hq, h]
  · intro hidem p hp
    rw [hv p hp, hidem]

theorem maskLowBits_idempotent (v : ProtocolVersion) :
    maskLowBits (maskLowBits v) = maskLowBits v := by
  simp only [maskLowBits, ProtocolVersion.mk.injEq]
  omega

/-- Witness for C13: adding an external client, then the local client of the same normalized
version, then an external client of an older version leaves two entries, the local client
under the shared normalized version; that key is a fixed point of the normalization. -/
theorem registry_one_client_per_version_witness :
    [externalClient70, localClient70, externalClient63].foldl
        (addClient maskLowBits preferNonExternal) []
      = [(⟨0x0FDB00B070010000⟩, localClient70), (⟨0x0FDB00B063010000⟩, externalClient63)] ∧
    maskLowBits ⟨0x0FDB00B070010000⟩ = ⟨0x0FDB00B070010000⟩ :=
  ⟨by decide,
   (registry_one_client_per_version maskLowBits preferNonExternal
      [externalClient70, localClient70, externalClient63]).2.2.2 maskLowBits_idempotent
      (⟨0x0FDB00B070010000⟩, localClient70) (by decide)⟩

/-! ## Sticky transaction options -/

theorem concatHelper_eq (ss : String) (first : Arg) (args : List Arg) :
    _concatHelper ss first args = ss ++ renderAll (first :: args) := by
  induction args generalizing ss first with
  | nil => simp [_concatHelper, renderAll]
  | cons next rest ih =>
    rw [_concatHelper, ih, String.append_assoc]
    rfl

theorem concatToString_eq_renderAll (first : Arg) (args : List Arg) :
    concatToString first args = renderAll (first :: args) := by
  rw [concatToString, concatHelper_eq, String.empty_append]

theorem renderAll_append (xs ys : List Arg) :
    renderAll (xs ++ ys) = renderAll xs ++ renderAll ys := by
  induction xs with
  | nil => simp [renderAll]
  | cons a rest ih => simp [renderAll, ih, String.append_assoc]

theorem renderAll_eq_join (xs : List Arg) :
    renderAll xs = String.join (xs.map Arg.render) := by
  apply String.ext
  induction xs with
  | nil => simp [renderAll]
  | cons a rest ih =>
    simp only [renderAll, String.data_append, ih, String.data_join, List.map_cons,
      List.flatten_cons]

theorem renderAll_strings_length (ss : List String) :
    (renderAll (ss.map Arg.str)).length = (ss.map String.length).sum := by
  induction ss with
  | nil => simp [renderAll]
  | cons s rest ih => simp [renderAll, Arg.render, ih]

/-- Claim C14.  `concatToString` concatenates its arguments: for every argument list
`first, args...` (it is never empty) the result is the stream rendering of the first argument
followed by the renderings of the others in argument order, with nothing before, between or
after them (it is the library concatenation `String.join` of the renderings); for a single
string argument `s` the result is `s`. -/
theorem concatToString_concatenates (first : Arg) (args : List Arg) (s : String) :
    concatToString first args = renderAll (first :: args) ∧
    concatToString first args = String.join ((first :: args).map Arg.render) ∧
    concatToString (Arg.str s) [] = s := by
  refine ⟨concatToString_eq_renderAll first args, ?_, ?_⟩
  · rw [concatToString_eq_renderAll, renderAll_eq_join]
  · simp [concatToString, _concatHelper, Arg.render]

/-- Claim C20.  `concatToString` is compositional over splitting its argument list: for all
non-empty lists `x, xs...` and `y, ys...`, the result on `x, xs..., y, ys...` is the result on
`x, xs...` followed by the result on `y, ys...`.  So for string arguments the length of the
result is the sum of the lengths of the arguments, and an empty string as an argument, in
first place or anywhere later, does not change the result. -/
theorem concatToString_split (x y : Arg) (xs ys : List Arg) (s : String) (ss : List String) :
    concatToString x (xs ++ y :: ys) = concatToString x xs ++ concatToString y ys ∧
    (concatToString (Arg.str s) (ss.map Arg.str)).length
      = s.length + (ss.map String.length).sum ∧
    concatToString (Arg.str "") (x :: xs) = concatToString x xs ∧
    concatToString x (xs ++ Arg.str "" :: ys) = concatToString x (xs ++ ys) := by
  refine ⟨?_, ?_, ?_, ?_⟩
  · rw [concatToString_eq_renderAll, concatToString_eq_renderAll, concatToString_eq_renderAll,
      ← List.cons_append, renderAll_append]
  · rw [concatToString_eq_renderAll, renderAll, String.length_append,
      renderAll_strings_length]
    rfl
  · rw [concatToString_eq_renderAll, concatToString_eq_renderAll]
    simp [renderAll, Arg.render]
  · rw [concatToString_eq_renderAll, concatToString_eq_renderAll, ← List.cons_append,
      ← List.cons_append, renderAll_append, renderAll_append]
    simp [renderAll, Arg.render]


/-! ## Eager database adapter, client version, busyness and server protocol -/

/-- Claim C15.  An eagerly constructed `DLDatabase` is ready at once: for every table and every
handle `h`, `DLDatabase(api, h)` stores exactly `h` as its database handle (and `api` as its
table), and its ready future is fulfilled with `Void()` at the end of construction: it is not
pending and holds no error.  So the handle given is in place when the ready future is set,
and it is a set (non-null) handle whenever a handle was given. -/
theorem dlDatabase_eager_ready (api : FdbCApi σ) (h : Ptr) :
    (DLDatabase.construct api h).db = h ∧
    (DLDatabase.construct api h).ready = ThreadFuture.value () ∧
    (DLDatabase.construct api h).ready ≠ ThreadFuture.pending ∧
    (∀ code, (DLDatabase.construct api h).ready ≠ ThreadFuture.error code) ∧
    ((DLDatabase.construct api h).ready = ThreadFuture.value () → h ≠ 0 →
      (DLDatabase.construct api h).db ≠ 0) := by
  refine ⟨rfl, rfl, ?_, ?_, ?_⟩
  · intro hp
    cases hp
  · intro code hp
    cases hp
  · intro _ hh
    exact hh

/-- Witness for C15 on the concrete library and the handle `4096`. -/
theorem dlDatabase_eager_ready_witness :
    (DLDatabase.construct stubLib 4096).db = 4096 ∧
    (DLDatabase.construct stubLib 4096).db ≠ 0 :=
  ⟨(dlDatabase_eager_ready stubLib 4096).1,
   (dlDatabase_eager_ready stubLib 4096).2.2.2.2 rfl (by decide)⟩

/-- Claim C16.  `getClientVersion` never fails: for every table and library state it returns
a string; when the pointer is null it returns the literal "unknown" and the library is not
called (state and log of received calls unchanged); when the pointer is bound it forwards: it
returns exactly the string the library function returns, the library receiving that one
call. -/
theorem getClientVersion_never_fails (api : FdbCApi σ) (s : σ) (log : List Call) :
    (∃ version, (api.getClientVersion s).1 = Outcome.ok version) ∧
    (api.getClientVersion_ = none →
      api.getClientVersion s = (Outcome.ok "unknown", s) ∧
      (record api).getClientVersion (s, log) = (Outcome.ok "unknown", (s, log))) ∧
    (∀ fp, api.getClientVersion_ = some fp →
      Forwards api.getClientVersion (record api).getClientVersion fp Call.getClientVersion) := by
  refine ⟨?_, ?_, ?_⟩
  · cases hp : api.getClientVersion_ <;>
      simp [FdbCApi.getClientVersion, hp, M.ret, callPtr]
  · intro hp
    cases api
    simp only at hp
    subst hp
    exact ⟨rfl, rfl⟩
  · intro fp hp
    cases api
    simp only at hp
    subst hp
    exact ⟨fun _ => rfl, fun _ _ => rfl⟩

/-- Witness for C16 on the concrete library: with the pointer null the answer is "unknown" and
nothing is logged; with it bound the answer is the library's "7.0.0" and one call is logged. -/
theorem getClientVersion_never_fails_witness :
    (record (unbind Entry.getClientVersion stubLib)).getClientVersion (5, [])
      = (Outcome.ok "unknown", (5, [])) ∧
    (record stubLib).getClientVersion (5, [])
      = (Outcome.ok "7.0.0", (6, [Call.getClientVersion])) :=
  ⟨((getClientVersion_never_fails (unbind Entry.getClientVersion stubLib) 5 []).2.1 rfl).2,
   ((getClientVersion_never_fails stubLib 5 []).2.2 _ rfl).2 5 []⟩

/-- Claim C17.  `databaseGetMainThreadBusyness` is total: for every table, database handle and
library state it returns a value and raises no error; when the pointer is null the value is
exactly `0` and the library is not called (state and log of received calls unchanged); when
the pointer is bound it forwards: it returns the value of the bound function for that handle,
the library receiving that one call. -/
theorem busyness_total (api : FdbCApi σ) (database : Ptr) (s : σ) (log : List Call) :
    (∃ busyness, (api.databaseGetMainThreadBusyness database s).1 = Outcome.ok busyness) ∧
    (api.databaseGetMainThreadBusyness_ = none →
      api.databaseGetMainThreadBusyness database s = (Outcome.ok 0, s) ∧
      (record api).databaseGetMainThreadBusyness database (s, log)
        = (Outcome.ok 0, (s, log))) ∧
    (∀ fp, api.databaseGetMainThreadBusyness_ = some fp →
      Forwards (api.databaseGetMainThreadBusyness database)
        ((record api).databaseGetMainThreadBusyness database)
        (fp database) (Call.databaseGetMainThreadBusyness database)) := by
  refine ⟨?_, ?_, ?_⟩
  · cases hp : api.databaseGetMainThreadBusyness_ <;>
      simp [FdbCApi.databaseGetMainThreadBusyness, hp, M.ret, callPtr]
  · intro hp
    cases api
    simp only at hp
    subst hp
    exact ⟨rfl, rfl⟩
  · intro fp hp
    cases api
    simp only at hp
    subst hp
    exact ⟨fun _ => rfl, fun _ _ => rfl⟩

/-- Witness for C17 on the concrete library: with the pointer null the value is `0` and
nothing is logged; with it bound the library's value `1` comes back and one call is logged. -/
theorem busyness_total_witness :
    (record (unbind Entry.databaseGetMainThreadBusyness stubLib)).databaseGetMainThreadBusyness
        4096 (5, []) = (Outcome.ok 0, (5, [])) ∧
    (record stubLib).databaseGetMainThreadBusyness 4096 (5, [])
      = (Outcome.ok 1, (6, [Call.databaseGetMainThreadBusyness 4096])) :=
  ⟨((busyness_total (unbind Entry.databaseGetMainThreadBusyness stubLib) 4096 5 []).2.1 rfl).2,
   ((busyness_total stubLib 4096 5 []).2.2 _ rfl).2 5 []⟩

/-- Claim C18.  When the server-protocol pointer is bound, the assertion of
`databaseGetServerProtocol` does not fail, and the call forwards: for every database handle
and every expected version it returns exactly the future the bound function returns for the
same handle and the same, unmodified expected version, the library receiving that one call. -/
theorem serverProtocol_bound_forwards (api : FdbCApi σ) (fp : Ptr → Nat → Lib σ Ptr)
    (hb : api.databaseGetServerProtocol_ = some fp) (database : Ptr) (expectedVersion : Nat)
    (s : σ) :
    (api.databaseGetServerProtocol database expectedVersion s).1 ≠ Outcome.assertFailed ∧
    Forwards (api.databaseGetServerProtocol database expectedVersion)
      ((record api).databaseGetServerProtocol database expectedVersion)
      (fp database expectedVersion)
      (Call.databaseGetServerProtocol database expectedVersion) := by
  cases api
  simp only at hb
  subst hb
  refine ⟨?_, fun _ => rfl, fun _ _ => rfl⟩
  intro h
  cases h

/-- Witness for C18 on the concrete library: the future `1005` of the library comes back and
the library sees the handle and the 64-bit expected version it was given. -/
theorem serverProtocol_bound_forwards_witness :
    (record stubLib).databaseGetServerProtocol 4096 0x0FDB00B070010001 (5, [])
      = (Outcome.ok 1005, (6, [Call.databaseGetServerProtocol 4096 0x0FDB00B070010001])) :=
  (serverProtocol_bound_forwards stubLib _ rfl 4096 0x0FDB00B070010001 5).2.2 5 []

/-- Claim C19.  A default-constructed `ClientInfo` is a placeholder that cannot be used: it
has `failed = true`, a null `api`, an empty `libPath`, `external = false` and protocol version
`0`; and among the three constructors a `ClientInfo` starts with `failed = false` exactly when
the constructor takes an api handle. -/
theorem clientInfo_default_placeholder (ctor : ClientInfo.Ctor) :
    ClientInfo.empty.failed = true ∧
    ClientInfo.empty.api = 0 ∧
    ClientInfo.empty.libPath = "" ∧
    ClientInfo.empty.external = false ∧
    ClientInfo.empty.protocolVersion = ⟨0⟩ ∧
    (ctor.build.failed = false ↔ ctor.takesApi = true) := by
  refine ⟨rfl, rfl, rfl, rfl, rfl, ?_⟩
  cases ctor <;> simp [ClientInfo.Ctor.build, ClientInfo.Ctor.takesApi, ClientInfo.empty,
    ClientInfo.ofApi, ClientInfo.ofApiLibPath]

end FDB
